import Mathlib

/-!
Verification of the reconstruction-and-analysis core of `network_diagram.py`
(AWS network diagram tool): a shallow embedding of its data model, loader
correlation steps, subnet classifier and connectivity analyzer, together with
theorems settling the specification claims about them.

Python `dict` collections are embedded as lists of entities in insertion
order (Python dicts iterate in insertion order); `dict.get` becomes a keyed
`find?`.  Optional string fields are `Option String`, and Python truthiness
of such a field (`if x:`) is `pyTruthy`.  All string processing is done on
the character list underlying a `String` with structural recursion, so every
definition evaluates inside the kernel.
-/

namespace NetworkDiagram

/-- Python truthiness of an `Optional[str]` value: `None` and `""` are falsy. -/
def pyTruthy : Option String → Bool
  | none => false
  | some s => !s.data.isEmpty

/-- Python `a or b` for strings: `a` if non-empty, else `b`. -/
def pyOr (a b : String) : String := if a.data.isEmpty then b else a

/-- Split a character list on a separator character; like Python
`str.split(sep)`, the empty input yields one empty field. -/
def splitOnChar (sep : Char) (l : List Char) : List (List Char) :=
  l.foldr
    (fun c acc =>
      match acc with
      | [] => [[c]]
      | g :: gs => if c == sep then [] :: g :: gs else (c :: g) :: gs)
    [[]]

/-- Code-point lexicographic order on character lists, as Python compares
strings. -/
def lexLe : List Char → List Char → Bool
  | [], _ => true
  | _ :: _, [] => false
  | c :: cs, d :: ds =>
    if c.toNat < d.toNat then true
    else if d.toNat < c.toNat then false
    else lexLe cs ds

/-- Code-point lexicographic order on strings. -/
def strLe (a b : String) : Bool := lexLe a.data b.data

/-- `s.startswith(p)` on strings. -/
def strStartsWith (s p : String) : Bool := p.data.isPrefixOf s.data

/-- Insert a string into an ascending, duplicate-free list, keeping it so. -/
def insertSortedNoDup (x : String) : List String → List String
  | [] => [x]
  | y :: ys =>
    if x == y then y :: ys
    else if strLe x y then x :: y :: ys
    else y :: insertSortedNoDup x ys

/-- Python `sorted(list(set(l)))` for strings: ascending order, duplicates
removed. -/
def sortedDedup (l : List String) : List String :=
  l.foldl (fun acc x => insertSortedNoDup x acc) []

/-! ## Model of Python's `ipaddress` module

`ipaddress.ip_network(s, strict=False)` is modelled for the canonical
textual forms: IPv4 dotted-quad (each octet `0..255`, no leading zeros),
IPv6 hexadecimal groups with at most one `::` compression, optionally
followed by `/` and a decimal prefix length.  `strict=False` masks host
bits.  (Netmask-string prefixes and IPv4-embedded IPv6 text are outside the
model.)  A network value keeps its version, its masked network address and
its prefix length, which is what the Python object's equality, `subnet_of`
and `overlaps` consult. -/

/-- An IP network as produced by `ipaddress.ip_network`: version flag,
network address (host bits cleared) and prefix length. -/
structure IPNet where
  v6 : Bool
  addr : Nat
  prefixLen : Nat
  deriving DecidableEq, Repr

/-- Address width of the network's version. -/
def IPNet.bits (n : IPNet) : Nat := if n.v6 then 128 else 32

/-- `broadcast_address` of the network: network address plus host-bit span. -/
def IPNet.broadcast (n : IPNet) : Nat := n.addr + (2 ^ (n.bits - n.prefixLen) - 1)

/-- Parse an unsigned decimal numeral: non-empty, digits only. -/
def parseDecimal (l : List Char) : Option Nat :=
  if l.isEmpty then none
  else if l.all (fun c => c.isDigit) then
    some (l.foldl (fun acc c => acc * 10 + (c.toNat - '0'.toNat)) 0)
  else none

/-- Parse one IPv4 octet: one to three digits, no leading zero, value ≤ 255. -/
def parseOctet (l : List Char) : Option Nat :=
  match parseDecimal l with
  | none => none
  | some v =>
    if l.length ≤ 3 && v ≤ 255 && !(l.length > 1 && l.head? == some '0') then
      some v
    else none

/-- Parse a dotted-quad IPv4 address into its 32-bit value. -/
def parseIPv4Addr (l : List Char) : Option Nat :=
  match (splitOnChar '.' l).mapM parseOctet with
  | some [a, b, c, d] => some (((a * 256 + b) * 256 + c) * 256 + d)
  | _ => none

/-- Value of one hexadecimal digit, if it is one. -/
def hexVal (c : Char) : Option Nat :=
  if c.isDigit then some (c.toNat - '0'.toNat)
  else if 'a'.toNat ≤ c.toNat && c.toNat ≤ 'f'.toNat then
    some (c.toNat - 'a'.toNat + 10)
  else if 'A'.toNat ≤ c.toNat && c.toNat ≤ 'F'.toNat then
    some (c.toNat - 'A'.toNat + 10)
  else none

/-- Parse one 16-bit IPv6 group: one to four hexadecimal digits. -/
def parseHexGroup (l : List Char) : Option Nat :=
  if l.isEmpty || decide (l.length > 4) then none
  else (l.mapM hexVal).map (fun ds => ds.foldl (fun acc d => acc * 16 + d) 0)

/-- Combine 16-bit groups into a 128-bit value. -/
def groupsToNat (gs : List Nat) : Nat :=
  gs.foldl (fun acc g => acc * 65536 + g) 0

/-- Locate the first `::` in a character list, returning the text before and
after it. -/
def findDoubleColon : List Char → Option (List Char × List Char)
  | [] => none
  | c :: cs =>
    match c, cs with
    | ':', ':' :: rest => some ([], rest)
    | _, _ => (findDoubleColon cs).map (fun p => (c :: p.1, p.2))

/-- Parse an IPv6 address in hexadecimal-group notation with at most one
`::` compression. -/
def parseIPv6Addr (l : List Char) : Option Nat :=
  match findDoubleColon l with
  | none =>
    match (splitOnChar ':' l).mapM parseHexGroup with
    | some gs => if gs.length = 8 then some (groupsToNat gs) else none
    | none => none
  | some (left, right) =>
    if (findDoubleColon right).isSome then none
    else
      let lparts := if left.isEmpty then some [] else (splitOnChar ':' left).mapM parseHexGroup
      let rparts := if right.isEmpty then some [] else (splitOnChar ':' right).mapM parseHexGroup
      match lparts, rparts with
      | some ls, some rs =>
        if ls.length + rs.length ≤ 7 then
          some (groupsToNat (ls ++ List.replicate (8 - ls.length - rs.length) 0 ++ rs))
        else none
      | _, _ => none

/-- Clear the host bits of an address under a prefix length. -/
def maskAddr (bits a p : Nat) : Nat := (a >>> (bits - p)) <<< (bits - p)

/-- Parse a prefix length: decimal digits, value bounded by the width. -/
def parsePrefixLen (bits : Nat) (l : List Char) : Option Nat :=
  match parseDecimal l with
  | some v => if v ≤ bits then some v else none
  | none => none

/-- Build a network of a given version from address and prefix parts,
masking host bits (`strict=False`). -/
def mkNet (isV6 : Bool) (parseAddr : List Char → Option Nat) (bits : Nat)
    (addrPart : List Char) (pfxPart : Option (List Char)) : Option IPNet :=
  match parseAddr addrPart with
  | none => none
  | some a =>
    match pfxPart with
    | none => some ⟨isV6, a, bits⟩
    | some p =>
      match parsePrefixLen bits p with
      | some v => some ⟨isV6, maskAddr bits a v, v⟩
      | none => none

/-- `ipaddress.ip_network(s, strict=False)`: split off an optional prefix,
try IPv4 first, then IPv6, as the Python factory function does. -/
def ipNetwork (s : String) : Option IPNet :=
  match splitOnChar '/' s.data with
  | [addrPart] =>
    match mkNet false parseIPv4Addr 32 addrPart none with
    | some n => some n
    | none => mkNet true parseIPv6Addr 128 addrPart none
  | [addrPart, pfxPart] =>
    match mkNet false parseIPv4Addr 32 addrPart (some pfxPart) with
    | some n => some n
    | none => mkNet true parseIPv6Addr 128 addrPart (some pfxPart)
  | _ => none

/-- `target.subnet_of(route)`: raises `TypeError` (here `none`) when the
versions differ, else compares network and broadcast addresses. -/
def subnetOfExc (target route : IPNet) : Option Bool :=
  if target.v6 ≠ route.v6 then none
  else some (decide (route.addr ≤ target.addr) &&
             decide (target.broadcast ≤ route.broadcast))

/-- Membership of an address in a network (`addr in net` in Python):
false across versions (not modelled here: both sides are same-version
callers guard it), else mask-and-compare. -/
def containsAddr (n : IPNet) (x : Nat) : Bool :=
  maskAddr n.bits x n.prefixLen == n.addr

/-- `a.overlaps(b)`: false across versions (address containment returns
false there), else the endpoint-containment disjunction from the library. -/
def netOverlaps (a b : IPNet) : Bool :=
  if a.v6 ≠ b.v6 then false
  else containsAddr b a.addr || containsAddr b a.broadcast ||
       containsAddr a b.addr || containsAddr a b.broadcast

/-! ## `ConnectivityAnalyzer._cidr_matches` -/

/-- `_cidr_matches(route_cidr, target_cidr)`: a literal `0.0.0.0/0` route
matches anything; otherwise parse both and test `subnet_of` or equality,
with every exception (parse failure, or `subnet_of`'s version-mismatch
`TypeError`) falling back to exact string equality. -/
def cidrMatches (route_cidr target_cidr : String) : Bool :=
  if route_cidr == "0.0.0.0/0" then true
  else
    match ipNetwork route_cidr with
    | none => route_cidr == target_cidr
    | some route_net =>
      match ipNetwork target_cidr with
      | none => route_cidr == target_cidr
      | some target_net =>
        match subnetOfExc target_net route_net with
        | none => route_cidr == target_cidr
        | some b => b || (route_net == target_net)

/-- Spec-side containment predicate: the target network is a sub-network of
(or identical to) the route network; false across versions. -/
def isSubnetworkOf (target route : IPNet) : Bool :=
  target.v6 == route.v6 && decide (route.addr ≤ target.addr) &&
    decide (target.broadcast ≤ route.broadcast)

/-- Spec-side restatement of the CIDR match rule as the spec words it:
default route matches unconditionally; both parse ⇒ containment; otherwise
exact string equality. -/
def cidrMatchesSpec (route_cidr target_cidr : String) : Bool :=
  if route_cidr == "0.0.0.0/0" then true
  else
    match ipNetwork route_cidr, ipNetwork target_cidr with
    | some route_net, some target_net => isSubnetworkOf target_net route_net
    | _, _ => route_cidr == target_cidr

/-! ## Data model (the dataclasses of the source)

Only the entities and fields the analysed behaviour reads are embedded;
rendering-only fields (availability zone, ASN, display badges …) are kept
where they document the record shape.  `private` and `local` are keywords
in Lean, so those two enum constructors carry a trailing underscore. -/

/-- `AttachmentType`. -/
inductive AttachmentType where
  | vpc
  | vpn
  | direct_connect
  | peering
  | tgw_peering
  | connect
  | unknown
  deriving DecidableEq, Repr

/-- `AttachmentType(value)` with the `except ValueError` fallback to
`UNKNOWN` used by the attachment loader. -/
def parseAttachmentType (s : String) : AttachmentType :=
  if s == "vpc" then .vpc
  else if s == "vpn" then .vpn
  else if s == "direct-connect-gateway" then .direct_connect
  else if s == "peering" then .peering
  else if s == "tgw-peering" then .tgw_peering
  else if s == "connect" then .connect
  else .unknown

/-- `RouteType`. -/
inductive RouteType where
  | static
  | propagated
  deriving DecidableEq, Repr

/-- `RouteState`. -/
inductive RouteState where
  | active
  | blackhole
  deriving DecidableEq, Repr

/-- `SubnetType`. -/
inductive SubnetType where
  | public
  | private_
  | isolated
  | tgw_attached
  deriving DecidableEq, Repr

/-- `RouteTargetType`. -/
inductive RouteTargetType where
  | local_
  | igw
  | nat
  | tgw
  | vpc_peering
  | vpc_endpoint
  | vgw
  | eni
  | egress_igw
  | unknown
  deriving DecidableEq, Repr

/-- `TGWRoute`: a route in a TGW route table. -/
structure TGWRoute where
  destination_cidr : String
  prefix_list_id : Option String
  attachment_id : Option String
  resource_id : Option String
  resource_type : Option String
  route_type : RouteType
  state : RouteState
  deriving DecidableEq, Repr

/-- `TGWRoute.is_blackhole`. -/
def TGWRoute.is_blackhole (r : TGWRoute) : Bool := r.state == RouteState.blackhole

/-- `TGWRouteTable`. -/
structure TGWRouteTable where
  id : String
  tgw_id : String
  name : String
  is_default_association : Bool
  is_default_propagation : Bool
  routes : List TGWRoute
  associations : List String
  propagations : List String
  deriving DecidableEq, Repr

/-- `TGWAttachment`. -/
structure TGWAttachment where
  id : String
  tgw_id : String
  type : AttachmentType
  resource_id : String
  resource_owner_id : String
  name : String
  state : String
  cidrs : List String
  associated_route_table_id : Option String
  propagating_to : List String
  is_cross_account : Bool
  tgw_owner_id : String
  deriving DecidableEq, Repr

/-- `VPCRoute`. -/
structure VPCRoute where
  destination : String
  target_type : RouteTargetType
  target_id : String
  state : RouteState
  deriving DecidableEq, Repr

/-- `VPCRouteTable`. -/
structure VPCRouteTable where
  id : String
  vpc_id : String
  name : String
  is_main : Bool
  routes : List VPCRoute
  subnet_ids : List String
  deriving DecidableEq, Repr

/-- `Subnet`. -/
structure Subnet where
  id : String
  vpc_id : String
  cidr : String
  az : String
  name : String
  route_table_id : Option String
  subnet_type : SubnetType
  deriving DecidableEq, Repr

/-- `VPC`. -/
structure VPC where
  id : String
  name : String
  cidrs : List String
  owner_id : String
  is_default : Bool
  igw_id : Option String
  nat_gateway_ids : List String
  tgw_attachment_id : Option String
  main_route_table_id : Option String
  deriving DecidableEq, Repr

/-- `TransitGateway`. -/
structure TransitGateway where
  id : String
  name : String
  owner_id : String
  asn : Nat
  state : String
  deriving DecidableEq, Repr

/-- `NetworkData`: the catalog, restricted to the collections the claims
read.  Each Python `dict[str, T]` keyed by entity id is a list of entities
in insertion order. -/
structure NetworkData where
  tgws : List TransitGateway
  tgw_route_tables : List TGWRouteTable
  tgw_attachments : List TGWAttachment
  vpcs : List VPC
  vpc_route_tables : List VPCRouteTable
  subnets : List Subnet
  local_account_id : String
  deriving DecidableEq, Repr

/-- `self.data.tgw_route_tables.get(rt_id)`. -/
def findTGWRouteTable (d : NetworkData) (rtId : String) : Option TGWRouteTable :=
  d.tgw_route_tables.find? (fun rt => rt.id == rtId)

/-- `self.data.vpc_route_tables[rt_id]` guarded by a membership test. -/
def findVPCRouteTable (d : NetworkData) (rtId : String) : Option VPCRouteTable :=
  d.vpc_route_tables.find? (fun rt => rt.id == rtId)

/-- `self.data.vpcs.get(vpc_id)`. -/
def findVPC (d : NetworkData) (vpcId : String) : Option VPC :=
  d.vpcs.find? (fun v => v.id == vpcId)

/-- `att_id in self.data.tgw_attachments`. -/
def findTGWAttachment (d : NetworkData) (attId : String) : Option TGWAttachment :=
  d.tgw_attachments.find? (fun a => a.id == attId)

/-- A finding emitted by `ConnectivityAnalyzer` (the dict keys `type`,
`severity`, `location`, `message`). -/
structure Finding where
  type : String
  severity : String
  location : String
  message : String
  deriving DecidableEq, Repr

/-! ## `AWSDataLoader._load_tgw_attachments` (cross-account flag) -/

/-- The fields of one raw record of `transit-gateway-attachments.json` that
the loader reads, with the loader's `.get(..., default)` applied. -/
structure RawTGWAttachment where
  attachment_id : String
  tgw_id : String
  resource_type : String
  resource_id : String
  resource_owner_id : String
  tgw_owner_id : String
  state : String
  name_tag : String
  deriving DecidableEq, Repr

/-- The cross-account determination of `_load_tgw_attachments`: compare the
resource owner to the TGW owner when both are non-empty, else to the local
account id when that and the resource owner are non-empty, else `False`. -/
def computeCrossAccount (localAccountId tgwOwner resourceOwner : String) : Bool :=
  if !tgwOwner.data.isEmpty && !resourceOwner.data.isEmpty then
    resourceOwner != tgwOwner
  else if !localAccountId.data.isEmpty && !resourceOwner.data.isEmpty then
    resourceOwner != localAccountId
  else false

/-- Build one `TGWAttachment` from a raw record as `_load_tgw_attachments`
does. -/
def loadTGWAttachment (localAccountId : String) (att : RawTGWAttachment) : TGWAttachment :=
  { id := att.attachment_id
    tgw_id := att.tgw_id
    type := parseAttachmentType att.resource_type
    resource_id := att.resource_id
    resource_owner_id := att.resource_owner_id
    name := pyOr att.name_tag att.resource_id
    state := att.state
    cidrs := []
    associated_route_table_id := none
    propagating_to := []
    is_cross_account := computeCrossAccount localAccountId att.tgw_owner_id att.resource_owner_id
    tgw_owner_id := att.tgw_owner_id }

/-- `_load_tgw_attachments` over a batch of raw records. -/
def loadTGWAttachments (localAccountId : String) (raws : List RawTGWAttachment) :
    List TGWAttachment :=
  raws.map (loadTGWAttachment localAccountId)

/-! ## `AWSDataLoader._load_tgw_route_details` (association phase) -/

/-- One record of an `associations-<rt_id>.json` file. -/
structure RawAssociation where
  state : String
  attachment_id : Option String
  deriving DecidableEq, Repr

/-- The acceptance guard of one association record: its attachment id,
when its state is `associated` and the id is truthy. -/
def recAccepted (assoc : RawAssociation) : Option String :=
  if assoc.state == "associated" && pyTruthy assoc.attachment_id then
    some (assoc.attachment_id.getD "")
  else none

/-- Effect of one `associations-<rt_id>.json` record: when accepted, append
the attachment id to the table's `associations` and, when that attachment
is in the catalog, point its `associated_route_table_id` at the table. -/
def applyAssociationRecord (rtId : String) (d : NetworkData) (assoc : RawAssociation) :
    NetworkData :=
  match recAccepted assoc with
  | none => d
  | some attId =>
    let d1 := { d with
      tgw_route_tables := d.tgw_route_tables.map (fun rt =>
        if rt.id == rtId then { rt with associations := rt.associations ++ [attId] } else rt) }
    if (findTGWAttachment d1 attId).isSome then
      { d1 with
        tgw_attachments := d1.tgw_attachments.map (fun a =>
          if a.id == attId then { a with associated_route_table_id := some rtId } else a) }
    else d1

/-- Effect of one `associations-<rt_id>.json` file: skipped entirely when
`rt_id` is not in the catalog. -/
def applyAssociationBatch (d : NetworkData) (batch : String × List RawAssociation) :
    NetworkData :=
  if (findTGWRouteTable d batch.1).isSome then
    batch.2.foldl (applyAssociationRecord batch.1) d
  else d

/-- The association phase of `_load_tgw_route_details` over all
`associations-*.json` files, in directory iteration order. -/
def applyAssociations (d : NetworkData) (batches : List (String × List RawAssociation)) :
    NetworkData :=
  batches.foldl applyAssociationBatch d

/-- All attachment ids accepted by any batch's records, in processing
order. -/
def acceptedIds (batches : List (String × List RawAssociation)) : List String :=
  batches.flatMap (fun b => b.2.filterMap recAccepted)

/-- The round-trip consistency invariant of the spec: an attachment id
appears in a table's associations iff that attachment points back at the
table. -/
def Good (d : NetworkData) : Prop :=
  ∀ t ∈ d.tgw_route_tables, ∀ a ∈ d.tgw_attachments,
    (a.id ∈ t.associations ↔ a.associated_route_table_id = some t.id)

/-- An attachment id not yet associated anywhere: in no table's
associations, and every catalog attachment with that id is unpointed. -/
def Fresh (d : NetworkData) (i : String) : Prop :=
  (∀ t ∈ d.tgw_route_tables, i ∉ t.associations) ∧
  (∀ a ∈ d.tgw_attachments, a.id = i → a.associated_route_table_id = none)

/-- An attachment id present in the catalog. -/
def Pres (d : NetworkData) (i : String) : Prop :=
  ∃ a ∈ d.tgw_attachments, a.id = i

/-! ## `AWSDataLoader._parse_vpc_route_target` -/

/-- The target-bearing fields of one raw VPC route record. -/
structure RawVPCRoute where
  gateway_id : Option String
  nat_gateway_id : Option String
  transit_gateway_id : Option String
  vpc_peering_id : Option String
  network_interface_id : Option String
  deriving DecidableEq, Repr

/-- The `if/elif` chain on a truthy `GatewayId` inside
`_parse_vpc_route_target`: `none` exactly when the chain returns nothing
and control falls through to the later fields. -/
def gatewayDispatch (gw : String) : Option (RouteTargetType × String) :=
  if gw == "local" then some (RouteTargetType.local_, "local")
  else if strStartsWith gw "igw-" then some (RouteTargetType.igw, gw)
  else if strStartsWith gw "vgw-" then some (RouteTargetType.vgw, gw)
  else if strStartsWith gw "eigw-" then some (RouteTargetType.egress_igw, gw)
  else if strStartsWith gw "vpce-" then some (RouteTargetType.vpc_endpoint, gw)
  else none

/-- `_parse_vpc_route_target`: the `GatewayId` prefix dispatch (which falls
through to the remaining fields when no prefix matches), then the
`NatGatewayId`/`TransitGatewayId`/`VpcPeeringConnectionId`/
`NetworkInterfaceId` chain, else `(UNKNOWN, "")`. -/
def parseVPCRouteTarget (route : RawVPCRoute) : RouteTargetType × String :=
  let viaGw : Option (RouteTargetType × String) :=
    if pyTruthy route.gateway_id then gatewayDispatch (route.gateway_id.getD "")
    else none
  match viaGw with
  | some res => res
  | none =>
    if pyTruthy route.nat_gateway_id then
      (RouteTargetType.nat, route.nat_gateway_id.getD "")
    else if pyTruthy route.transit_gateway_id then
      (RouteTargetType.tgw, route.transit_gateway_id.getD "")
    else if pyTruthy route.vpc_peering_id then
      (RouteTargetType.vpc_peering, route.vpc_peering_id.getD "")
    else if pyTruthy route.network_interface_id then
      (RouteTargetType.eni, route.network_interface_id.getD "")
    else (RouteTargetType.unknown, "")

/-! ## `AWSDataLoader._extract_cross_account_cidrs` -/

/-- The guard of the candidate-collection loop in
`_extract_cross_account_cidrs`: a propagated route with a truthy attachment
id equal to the given one and a non-empty destination CIDR. -/
def propagatedCandidate (attId : String) (route : TGWRoute) : Bool :=
  route.route_type == RouteType.propagated && pyTruthy route.attachment_id &&
    !route.destination_cidr.data.isEmpty && route.attachment_id == some attId

/-- The candidate CIDRs collected for one attachment id: every propagated
route of every TGW route table that names that attachment and carries a
non-empty destination CIDR contributes its CIDR (the `att_cidrs`
defaultdict, read back as a list in collection order). -/
def candidatesFor (d : NetworkData) (attId : String) : List String :=
  d.tgw_route_tables.foldr
    (fun rt acc =>
      rt.routes.foldr
        (fun route acc2 =>
          if propagatedCandidate attId route then route.destination_cidr :: acc2 else acc2)
        acc)
    []

/-- The per-attachment update of `_extract_cross_account_cidrs`: a VPC-type
attachment without CIDRs whose id has candidates receives the sorted
de-duplicated candidates; then the same for a VPN-type attachment. -/
def fillAttachmentCidrs (d : NetworkData) (att : TGWAttachment) : TGWAttachment :=
  let att1 :=
    if att.type == AttachmentType.vpc && att.cidrs.isEmpty then
      if !(candidatesFor d att.id).isEmpty then
        { att with cidrs := sortedDedup (candidatesFor d att.id) }
      else att
    else att
  if att1.type == AttachmentType.vpn && att1.cidrs.isEmpty then
    if !(candidatesFor d att1.id).isEmpty then
      { att1 with cidrs := sortedDedup (candidatesFor d att1.id) }
    else att1
  else att1

/-- `_extract_cross_account_cidrs`: build the candidate map from the route
tables, then update the attachments; nothing else is touched. -/
def extractCrossAccountCidrs (d : NetworkData) : NetworkData :=
  { d with tgw_attachments := d.tgw_attachments.map (fillAttachmentCidrs d) }

/-! ## `AWSDataLoader._classify_subnets` -/

/-- The scanning loop of `_classify_subnets` over a table's routes: the
first route whose destination is literally `0.0.0.0/0` or `::/0` and whose
target type is IGW/NAT/TGW decides the class; any other route (default
routes with other targets included) leaves the current class and the scan
continues. -/
def scanClassAux (cur : SubnetType) : List VPCRoute → SubnetType
  | [] => cur
  | r :: rs =>
    if r.destination == "0.0.0.0/0" || r.destination == "::/0" then
      if r.target_type == RouteTargetType.igw then SubnetType.public
      else if r.target_type == RouteTargetType.nat then SubnetType.private_
      else if r.target_type == RouteTargetType.tgw then SubnetType.tgw_attached
      else scanClassAux cur rs
    else scanClassAux cur rs

/-- `_classify_subnets` for one subnet: resolve the effective route table
(explicit `route_table_id`, else the VPC's main table), classify `ISOLATED`
when it does not resolve to a catalog table, else run the scan. -/
def classifySubnet (d : NetworkData) (s : Subnet) : Subnet :=
  let rtId0 := s.route_table_id
  let rtId :=
    if pyTruthy rtId0 then rtId0
    else
      match findVPC d s.vpc_id with
      | some vpc => vpc.main_route_table_id
      | none => rtId0
  if !pyTruthy rtId then { s with subnet_type := SubnetType.isolated }
  else
    match findVPCRouteTable d (rtId.getD "") with
    | none => { s with subnet_type := SubnetType.isolated }
    | some rt => { s with subnet_type := scanClassAux s.subnet_type rt.routes }

/-- `_classify_subnets` over the catalog. -/
def classifySubnets (d : NetworkData) : NetworkData :=
  { d with subnets := d.subnets.map (classifySubnet d) }

/-! ## `ConnectivityAnalyzer` -/

/-- `_can_reach(src, dst)`: false without an associated route table or when
that table is not in the catalog, else true iff some non-blackhole route of
the table names `dst` and its destination CIDR matches one of `dst`'s
CIDRs. -/
def canReach (d : NetworkData) (src dst : TGWAttachment) : Bool :=
  if !pyTruthy src.associated_route_table_id then false
  else
    match findTGWRouteTable d (src.associated_route_table_id.getD "") with
    | none => false
    | some rt =>
      dst.cidrs.any (fun cidr =>
        rt.routes.any (fun route =>
          !route.is_blackhole && route.attachment_id == some dst.id &&
            cidrMatches route.destination_cidr cidr))

/-- The finding `_check_asymmetric_routing` appends for a pair. -/
def mkAsymFinding (src dst : TGWAttachment) : Finding :=
  { type := "asymmetric"
    severity := "warning"
    location := src.name ++ " → " ++ dst.name
    message := "Asymmetric routing: " ++ src.name ++ " can reach " ++ dst.name ++
      " but not vice versa" }

/-- The `tgw_atts` list comprehension of `_check_asymmetric_routing`: the
attachments on one TGW. -/
def tgwAtts (d : NetworkData) (tgwId : String) : List TGWAttachment :=
  d.tgw_attachments.filter (fun a => a.tgw_id == tgwId)

/-- `_check_asymmetric_routing`: for every TGW, for every ordered pair of
distinct attachments on it, flag one-directional reachability. -/
def checkAsymmetricRouting (d : NetworkData) : List Finding :=
  d.tgws.flatMap (fun tgw =>
    (tgwAtts d tgw.id).flatMap (fun src =>
      (tgwAtts d tgw.id).filterMap (fun dst =>
        if src.id == dst.id then none
        else if canReach d src dst && !canReach d dst src then
          some (mkAsymFinding src dst)
        else none)))

/-- Companion to `checkAsymmetricRouting` that keeps the flagged ordered
pairs themselves. -/
def asymPairs (d : NetworkData) : List (TGWAttachment × TGWAttachment) :=
  d.tgws.flatMap (fun tgw =>
    (tgwAtts d tgw.id).flatMap (fun src =>
      (tgwAtts d tgw.id).filterMap (fun dst =>
        if src.id == dst.id then none
        else if canReach d src dst && !canReach d dst src then
          some (src, dst)
        else none)))

/-- The overlap test inside `_check_cidr_overlaps`'s `try`: parse both
CIDRs and call `overlaps`; any parse failure lands in the `except: pass`
and contributes nothing. -/
def overlapsB (c1 c2 : String) : Bool :=
  match ipNetwork c1, ipNetwork c2 with
  | some n1, some n2 => netOverlaps n1 n2
  | _, _ => false

/-- The finding `_check_cidr_overlaps` appends for an overlapping pair. -/
def mkOverlapFinding (vpc1 : VPC) (cidr1 : String) (vpc2 : VPC) (cidr2 : String) : Finding :=
  { type := "overlap"
    severity := "warning"
    location := vpc1.name ++ " / " ++ vpc2.name
    message := "CIDR overlap: " ++ vpc1.name ++ " (" ++ cidr1 ++ ") overlaps with " ++
      vpc2.name ++ " (" ++ cidr2 ++ ")" }

/-- `_check_cidr_overlaps`: every later-positioned VPC against every
earlier one (`vpcs[i+1:]`), every CIDR cross-pair, one finding per
overlapping parseable pair. -/
def checkCidrOverlaps : List VPC → List Finding
  | [] => []
  | vpc1 :: rest =>
    (rest.flatMap (fun vpc2 =>
      vpc1.cidrs.flatMap (fun cidr1 =>
        vpc2.cidrs.filterMap (fun cidr2 =>
          if overlapsB cidr1 cidr2 then some (mkOverlapFinding vpc1 cidr1 vpc2 cidr2)
          else none)))) ++ checkCidrOverlaps rest

/-- The flagged (vpc1, cidr1, vpc2, cidr2) quadruples of one inner VPC
pair: every CIDR cross-pair that overlaps. -/
def overlapCross (vpc1 vpc2 : VPC) : List (VPC × String × VPC × String) :=
  vpc1.cidrs.flatMap (fun cidr1 =>
    vpc2.cidrs.filterMap (fun cidr2 =>
      if overlapsB cidr1 cidr2 then some (vpc1, cidr1, vpc2, cidr2)
      else none))

/-- The flagged quadruples of one outer iteration: `vpc1` against every
later VPC. -/
def overlapBlock (vpc1 : VPC) (others : List VPC) :
    List (VPC × String × VPC × String) :=
  others.flatMap (overlapCross vpc1)

/-- Companion to `checkCidrOverlaps` that keeps the flagged quadruples. -/
def overlapQuads : List VPC → List (VPC × String × VPC × String)
  | [] => []
  | vpc1 :: rest => overlapBlock vpc1 rest ++ overlapQuads rest

/-- Spec-side matcher: does a flagged quadruple name the unordered pair
given by (VPC id, CIDR) twice over, in either orientation? -/
def quadMatch (v1id c1 v2id c2 : String) (q : VPC × String × VPC × String) : Bool :=
  (q.1.id == v1id && q.2.1 == c1 && q.2.2.1.id == v2id && q.2.2.2 == c2) ||
  (q.1.id == v2id && q.2.1 == c2 && q.2.2.1.id == v1id && q.2.2.2 == c1)

/-! ## Spec-side definitions for the classifier claims -/

/-- The effective route table the spec describes for a subnet: the explicit
`route_table_id` when set, else the owning VPC's main route table, and only
when that id names a table present in the catalog. -/
def effectiveRouteTable (d : NetworkData) (s : Subnet) : Option VPCRouteTable :=
  if pyTruthy s.route_table_id then findVPCRouteTable d (s.route_table_id.getD "")
  else
    match findVPC d s.vpc_id with
    | some vpc =>
      if pyTruthy vpc.main_route_table_id then
        findVPCRouteTable d (vpc.main_route_table_id.getD "")
      else none
    | none => none

/-- A VPC route whose destination is literally the IPv4 or IPv6 default. -/
def isDefaultRoute (r : VPCRoute) : Bool :=
  r.destination == "0.0.0.0/0" || r.destination == "::/0"

/-- A target type that decides the classification scan. -/
def decisiveTarget (t : RouteTargetType) : Bool :=
  t == RouteTargetType.igw || t == RouteTargetType.nat || t == RouteTargetType.tgw

/-- Reassign one VPC route's state, keeping destination and target. -/
def mapRouteState (f : VPCRoute → RouteState) (r : VPCRoute) : VPCRoute :=
  { r with state := f r }

/-- Reassign the states of all routes of one table. -/
def mapTableStates (f : VPCRoute → RouteState) (rt : VPCRouteTable) : VPCRouteTable :=
  { rt with routes := rt.routes.map (mapRouteState f) }

/-- Replace every VPC route's state by an arbitrary reassignment, leaving
every other field of the catalog untouched: "two catalogs differing only in
VPC route states". -/
def setRouteStates (f : VPCRoute → RouteState) (d : NetworkData) : NetworkData :=
  { d with vpc_route_tables := d.vpc_route_tables.map (mapTableStates f) }

/-! ## Concrete catalogs used as claim scenarios -/

/-- A VPC with a main route table, for the classifier scenarios. -/
def exVPC1 : VPC :=
  { id := "vpc-1", name := "vpc-1", cidrs := ["10.0.0.0/16"], owner_id := "111111111111",
    is_default := false, igw_id := none, nat_gateway_ids := ["nat-1"],
    tgw_attachment_id := none, main_route_table_id := some "rtb-main" }

/-- Main table with a NAT default route followed by a local route. -/
def exMainTable : VPCRouteTable :=
  { id := "rtb-main", vpc_id := "vpc-1", name := "main", is_main := true,
    routes := [VPCRoute.mk "0.0.0.0/0" RouteTargetType.nat "nat-1" RouteState.active,
               VPCRoute.mk "10.0.0.0/8" RouteTargetType.local_ "local" RouteState.active],
    subnet_ids := ["subnet-1"] }

/-- A route table with no routes at all. -/
def exEmptyTable : VPCRouteTable :=
  { id := "rtb-empty", vpc_id := "vpc-1", name := "empty", is_main := false,
    routes := [], subnet_ids := ["subnet-2"] }

/-- Subnet governed by the VPC's main table (no explicit table). -/
def exSubnet1 : Subnet :=
  { id := "subnet-1", vpc_id := "vpc-1", cidr := "10.0.1.0/24", az := "a", name := "s1",
    route_table_id := none, subnet_type := SubnetType.isolated }

/-- Subnet with an explicit empty table. -/
def exSubnet2 : Subnet :=
  { id := "subnet-2", vpc_id := "vpc-1", cidr := "10.0.2.0/24", az := "a", name := "s2",
    route_table_id := some "rtb-empty", subnet_type := SubnetType.isolated }

/-- Catalog for the C3 classification scenario. -/
def exClassifyData : NetworkData :=
  { tgws := [], tgw_route_tables := [], tgw_attachments := [], vpcs := [exVPC1],
    vpc_route_tables := [exMainTable, exEmptyTable], subnets := [exSubnet1, exSubnet2],
    local_account_id := "111111111111" }

/-- Table whose first default route targets a VGW and whose second default
route targets an IGW. -/
def exC4Table : VPCRouteTable :=
  { id := "rtb-dup", vpc_id := "vpc-1", name := "dup", is_main := false,
    routes := [VPCRoute.mk "0.0.0.0/0" RouteTargetType.vgw "vgw-1" RouteState.active,
               VPCRoute.mk "0.0.0.0/0" RouteTargetType.igw "igw-1" RouteState.active],
    subnet_ids := ["subnet-3"] }

/-- Subnet governed by `exC4Table`. -/
def exC4Subnet : Subnet :=
  { id := "subnet-3", vpc_id := "vpc-1", cidr := "10.0.3.0/24", az := "a", name := "s3",
    route_table_id := some "rtb-dup", subnet_type := SubnetType.isolated }

/-- Catalog for the C4 scenario. -/
def exC4Data : NetworkData :=
  { tgws := [], tgw_route_tables := [], tgw_attachments := [], vpcs := [exVPC1],
    vpc_route_tables := [exC4Table], subnets := [exC4Subnet],
    local_account_id := "111111111111" }

/-- Table whose one default route targets an IGW but is in blackhole state. -/
def exC10Table : VPCRouteTable :=
  { id := "rtb-bh", vpc_id := "vpc-1", name := "bh", is_main := false,
    routes := [VPCRoute.mk "0.0.0.0/0" RouteTargetType.igw "igw-1" RouteState.blackhole],
    subnet_ids := ["subnet-4"] }

/-- Subnet governed by `exC10Table`. -/
def exC10Subnet : Subnet :=
  { id := "subnet-4", vpc_id := "vpc-1", cidr := "10.0.4.0/24", az := "a", name := "s4",
    route_table_id := some "rtb-bh", subnet_type := SubnetType.isolated }

/-- Catalog for the C10 scenario. -/
def exC10Data : NetworkData :=
  { tgws := [], tgw_route_tables := [], tgw_attachments := [], vpcs := [exVPC1],
    vpc_route_tables := [exC10Table], subnets := [exC10Subnet],
    local_account_id := "111111111111" }

/-- Attachment A of the one-directional-route scenario. -/
def exAttA : TGWAttachment :=
  { id := "tgw-attach-A", tgw_id := "tgw-1", type := AttachmentType.vpc,
    resource_id := "vpc-A", resource_owner_id := "111111111111", name := "A",
    state := "available", cidrs := ["10.1.0.0/16"],
    associated_route_table_id := some "tgw-rtb-A", propagating_to := [],
    is_cross_account := false, tgw_owner_id := "111111111111" }

/-- Attachment B of the one-directional-route scenario. -/
def exAttB : TGWAttachment :=
  { id := "tgw-attach-B", tgw_id := "tgw-1", type := AttachmentType.vpc,
    resource_id := "vpc-B", resource_owner_id := "111111111111", name := "B",
    state := "available", cidrs := ["10.2.0.0/16"],
    associated_route_table_id := some "tgw-rtb-B", propagating_to := [],
    is_cross_account := false, tgw_owner_id := "111111111111" }

/-- A's associated table: one active route to B's CIDR attributed to B. -/
def exRTA : TGWRouteTable :=
  { id := "tgw-rtb-A", tgw_id := "tgw-1", name := "rtA",
    is_default_association := false, is_default_propagation := false,
    routes := [TGWRoute.mk "10.2.0.0/16" none (some "tgw-attach-B") (some "vpc-B")
      (some "vpc") RouteType.propagated RouteState.active],
    associations := ["tgw-attach-A"], propagations := [] }

/-- B's associated table: no route back to A. -/
def exRTB : TGWRouteTable :=
  { id := "tgw-rtb-B", tgw_id := "tgw-1", name := "rtB",
    is_default_association := false, is_default_propagation := false,
    routes := [], associations := ["tgw-attach-B"], propagations := [] }

/-- The TGW of the one-directional-route scenario. -/
def exTGW : TransitGateway :=
  { id := "tgw-1", name := "tgw", owner_id := "111111111111", asn := 64512,
    state := "available" }

/-- Catalog for the C1 scenario. -/
def exC1Data : NetworkData :=
  { tgws := [exTGW], tgw_route_tables := [exRTA, exRTB],
    tgw_attachments := [exAttA, exAttB], vpcs := [], vpc_route_tables := [],
    subnets := [], local_account_id := "111111111111" }

/-- First TGW route table of the association scenario, freshly loaded. -/
def exC6T1 : TGWRouteTable :=
  { id := "tgw-rtb-1", tgw_id := "tgw-1", name := "rt1",
    is_default_association := false, is_default_propagation := false,
    routes := [], associations := [], propagations := [] }

/-- Second TGW route table of the association scenario, freshly loaded. -/
def exC6T2 : TGWRouteTable :=
  { id := "tgw-rtb-2", tgw_id := "tgw-1", name := "rt2",
    is_default_association := false, is_default_propagation := false,
    routes := [], associations := [], propagations := [] }

/-- The attachment of the association scenario, freshly loaded. -/
def exC6Att : TGWAttachment :=
  { id := "att-A", tgw_id := "tgw-1", type := AttachmentType.vpc,
    resource_id := "vpc-A", resource_owner_id := "", name := "A",
    state := "available", cidrs := [], associated_route_table_id := none,
    propagating_to := [], is_cross_account := false, tgw_owner_id := "" }

/-- Catalog for the association scenario. -/
def exC6Data : NetworkData :=
  { tgws := [], tgw_route_tables := [exC6T1, exC6T2], tgw_attachments := [exC6Att],
    vpcs := [], vpc_route_tables := [], subnets := [], local_account_id := "" }

/-- Batches associating the same attachment to both tables. -/
def exC6Batches : List (String × List RawAssociation) :=
  [("tgw-rtb-1", [RawAssociation.mk "associated" (some "att-A")]),
   ("tgw-rtb-2", [RawAssociation.mk "associated" (some "att-A")])]

/-- A well-formed batch: the attachment associated to one table only. -/
def exC6GoodBatches : List (String × List RawAssociation) :=
  [("tgw-rtb-1", [RawAssociation.mk "associated" (some "att-A")])]

/-- First VPC of the overlap scenario. -/
def exVPCo1 : VPC :=
  { id := "vpc-o1", name := "VPC1", cidrs := ["10.0.0.0/16"],
    owner_id := "111111111111", is_default := false, igw_id := none,
    nat_gateway_ids := [], tgw_attachment_id := none, main_route_table_id := none }

/-- Second VPC of the overlap scenario. -/
def exVPCo2 : VPC :=
  { id := "vpc-o2", name := "VPC2", cidrs := ["10.0.5.0/24"],
    owner_id := "111111111111", is_default := false, igw_id := none,
    nat_gateway_ids := [], tgw_attachment_id := none, main_route_table_id := none }

/-! ## Helper lemmas -/

theorem strEmpty_iff (s : String) : s.data.isEmpty = true ↔ s = "" := by
  constructor
  · intro h
    apply String.ext
    simpa [List.isEmpty_iff] using h
  · rintro rfl
    rfl

/-- `classifySubnet` computes exactly: resolve the effective table, else
isolate; on a resolved table run the scan from the subnet's current class. -/
theorem classifySubnet_subnet_type (d : NetworkData) (s : Subnet) :
    (classifySubnet d s).subnet_type =
      match effectiveRouteTable d s with
      | none => SubnetType.isolated
      | some rt => scanClassAux s.subnet_type rt.routes := by
  unfold classifySubnet effectiveRouteTable
  by_cases hp : pyTruthy s.route_table_id = true
  · simp only [hp, if_pos]
    cases h : findVPCRouteTable d (s.route_table_id.getD "") <;> simp [h, hp]
  · have hp' : pyTruthy s.route_table_id = false := by
      cases hq : pyTruthy s.route_table_id
      · rfl
      · exact absurd hq hp
    cases hv : findVPC d s.vpc_id with
    | none => simp [hp', hv]
    | some vpc =>
      by_cases hm : pyTruthy vpc.main_route_table_id = true
      · simp only [hp', hv, Bool.false_eq_true, if_neg, if_false, hm, if_pos]
        cases h : findVPCRouteTable d (vpc.main_route_table_id.getD "") <;> simp [h, hm]
      · have hm' : pyTruthy vpc.main_route_table_id = false := by
          cases hq : pyTruthy vpc.main_route_table_id
          · rfl
          · exact absurd hq hm
        simp [hp', hv, hm']

theorem strNonempty_iff (s : String) : (!s.data.isEmpty) = true ↔ s ≠ "" := by
  cases hb : s.data.isEmpty
  · constructor
    · intro _ hs
      rw [hs] at hb
      cases hb
    · intro _
      simp
  · constructor
    · intro h
      simp at h
    · intro hne
      exact absurd ((strEmpty_iff s).mp hb) hne

/-- The candidate-collection guard, read as the spec reads it. -/
theorem propagatedCandidate_iff (i : String) (route : TGWRoute) :
    propagatedCandidate i route = true ↔
      (route.route_type = RouteType.propagated ∧ route.attachment_id = some i ∧
        i ≠ "" ∧ route.destination_cidr ≠ "") := by
  unfold propagatedCandidate
  cases ha : route.attachment_id with
  | none => simp [ha, pyTruthy]
  | some s =>
    simp only [ha, pyTruthy, Bool.and_eq_true, beq_iff_eq, Option.some.injEq,
      strNonempty_iff]
    constructor
    · rintro ⟨⟨⟨h1, h2⟩, h3⟩, rfl⟩
      exact ⟨h1, rfl, h2, h3⟩
    · rintro ⟨h1, rfl, h3, h4⟩
      exact ⟨⟨⟨h1, h3⟩, h4⟩, rfl⟩

/-- Membership in the inner (per-table) candidate fold. -/
theorem mem_routesFold (i c : String) :
    ∀ (routes : List TGWRoute) (acc : List String),
      (c ∈ routes.foldr
          (fun route acc2 =>
            if propagatedCandidate i route then route.destination_cidr :: acc2 else acc2)
          acc ↔
        (∃ route ∈ routes, propagatedCandidate i route = true ∧
          route.destination_cidr = c) ∨ c ∈ acc)
  | [], acc => by simp
  | r :: rs, acc => by
    by_cases h : propagatedCandidate i r = true
    · rw [List.foldr_cons, if_pos h, List.mem_cons, mem_routesFold i c rs acc]
      constructor
      · rintro (rfl | (⟨q, hq, hg, hd⟩ | hacc))
        · exact Or.inl ⟨r, List.mem_cons_self r rs, h, rfl⟩
        · exact Or.inl ⟨q, List.mem_cons_of_mem r hq, hg, hd⟩
        · exact Or.inr hacc
      · rintro (⟨q, hq, hg, hd⟩ | hacc)
        · rcases List.mem_cons.mp hq with rfl | hq'
          · exact Or.inl hd.symm
          · exact Or.inr (Or.inl ⟨q, hq', hg, hd⟩)
        · exact Or.inr (Or.inr hacc)
    · rw [List.foldr_cons, if_neg h, mem_routesFold i c rs acc]
      constructor
      · rintro (⟨q, hq, hg, hd⟩ | hacc)
        · exact Or.inl ⟨q, List.mem_cons_of_mem r hq, hg, hd⟩
        · exact Or.inr hacc
      · rintro (⟨q, hq, hg, hd⟩ | hacc)
        · rcases List.mem_cons.mp hq with rfl | hq'
          · exact absurd hg h
          · exact Or.inl ⟨q, hq', hg, hd⟩
        · exact Or.inr hacc

/-- Membership in the candidate set for an attachment id. -/
theorem mem_candidatesFor (d : NetworkData) (i c : String) :
    c ∈ candidatesFor d i ↔
      ∃ rt ∈ d.tgw_route_tables, ∃ route ∈ rt.routes,
        propagatedCandidate i route = true ∧ route.destination_cidr = c := by
  show c ∈ d.tgw_route_tables.foldr _ [] ↔ _
  induction d.tgw_route_tables with
  | nil => simp [candidatesFor]
  | cons t ts ih =>
    rw [List.foldr_cons, mem_routesFold i c t.routes]
    constructor
    · rintro (⟨q, hq, hg, hd⟩ | hacc)
      · exact ⟨t, List.mem_cons_self t ts, q, hq, hg, hd⟩
      · obtain ⟨rt, hrt, q, hq, hg, hd⟩ := ih.mp hacc
        exact ⟨rt, List.mem_cons_of_mem t hrt, q, hq, hg, hd⟩
    · rintro ⟨rt, hrt, q, hq, hg, hd⟩
      rcases List.mem_cons.mp hrt with rfl | hrt'
      · exact Or.inl ⟨q, hq, hg, hd⟩
      · exact Or.inr (ih.mpr ⟨rt, hrt', q, hq, hg, hd⟩)

theorem mem_insertSortedNoDup (x y : String) :
    ∀ l : List String, y ∈ insertSortedNoDup x l ↔ y = x ∨ y ∈ l
  | [] => by simp [insertSortedNoDup]
  | z :: zs => by
    unfold insertSortedNoDup
    by_cases h1 : (x == z) = true
    · have hxz : x = z := beq_iff_eq.mp h1
      rw [if_pos h1, hxz]
      simp only [List.mem_cons]
      tauto
    · rw [if_neg h1]
      by_cases h2 : strLe x z = true
      · rw [if_pos h2]
        simp [List.mem_cons]
      · rw [if_neg h2]
        simp only [List.mem_cons, mem_insertSortedNoDup x y zs]
        tauto

theorem mem_sortedDedup_aux (y : String) :
    ∀ (l acc : List String),
      y ∈ l.foldl (fun acc x => insertSortedNoDup x acc) acc ↔ y ∈ l ∨ y ∈ acc
  | [], acc => by simp
  | x :: xs, acc => by
    rw [List.foldl_cons, mem_sortedDedup_aux y xs, mem_insertSortedNoDup, List.mem_cons]
    tauto

/-- `sorted(list(set(l)))` has exactly the members of `l`. -/
theorem mem_sortedDedup (l : List String) (y : String) : y ∈ sortedDedup l ↔ y ∈ l := by
  rw [sortedDedup, mem_sortedDedup_aux]
  simp

/-- The per-attachment CIDR backfill, written as the spec words it: exactly
the CIDR-less VPC/VPN attachments receive the sorted de-duplicated
candidates for their id; everything else is untouched. -/
theorem fillAttachmentCidrs_spec (d : NetworkData) (att : TGWAttachment) :
    fillAttachmentCidrs d att =
      if (att.type = AttachmentType.vpc ∨ att.type = AttachmentType.vpn) ∧ att.cidrs = []
      then { att with cidrs := sortedDedup (candidatesFor d att.id) }
      else att := by
  obtain ⟨aid, tgwid, ty, rid, roid, nm, st, cidrs, assoc, prop, xacc, towner⟩ := att
  unfold fillAttachmentCidrs
  dsimp only
  cases ty <;> cases cidrs
  · by_cases hc : candidatesFor d aid = []
    · simp [List.isEmpty_iff, hc, sortedDedup]
    · simp [List.isEmpty_iff, hc]
  · simp
  · by_cases hc : candidatesFor d aid = []
    · simp [List.isEmpty_iff, hc, sortedDedup]
    · simp [List.isEmpty_iff, hc]
  · simp
  all_goals simp

/-- Unfolding equation of the scan on a non-empty route list. -/
theorem scanClassAux_cons (cur : SubnetType) (r : VPCRoute) (rs : List VPCRoute) :
    scanClassAux cur (r :: rs) =
      if isDefaultRoute r then
        if r.target_type == RouteTargetType.igw then SubnetType.public
        else if r.target_type == RouteTargetType.nat then SubnetType.private_
        else if r.target_type == RouteTargetType.tgw then SubnetType.tgw_attached
        else scanClassAux cur rs
      else scanClassAux cur rs := rfl

/-- A route that is not a default route is skipped by the scan. -/
theorem scanClassAux_cons_of_not_default (cur : SubnetType) (r : VPCRoute) (rs : List VPCRoute)
    (h : isDefaultRoute r = false) :
    scanClassAux cur (r :: rs) = scanClassAux cur rs := by
  rw [scanClassAux_cons]
  simp [h]

/-- A route whose target type is not IGW/NAT/TGW is skipped by the scan —
default-route destinations included. -/
theorem scanClassAux_cons_of_not_decisive (cur : SubnetType) (r : VPCRoute) (rs : List VPCRoute)
    (h : decisiveTarget r.target_type = false) :
    scanClassAux cur (r :: rs) = scanClassAux cur rs := by
  obtain ⟨dest, tt, tid, st⟩ := r
  cases tt <;> simp_all [decisiveTarget, scanClassAux_cons]

/-- A scan that sees no default route returns the current class unchanged. -/
theorem scanClassAux_of_no_default (cur : SubnetType) :
    ∀ routes : List VPCRoute, (∀ q ∈ routes, isDefaultRoute q = false) →
      scanClassAux cur routes = cur
  | [], _ => rfl
  | r :: rs, h => by
    rw [scanClassAux_cons_of_not_default cur r rs (h r (List.mem_cons_self r rs))]
    exact scanClassAux_of_no_default cur rs (fun q hq => h q (List.mem_cons_of_mem r hq))

/-- The first default route whose target is decisive settles the scan:
IGW ⇒ public, NAT ⇒ private, TGW ⇒ tgw-attached. -/
theorem scanClassAux_first_decisive (cur : SubnetType) :
    ∀ pre : List VPCRoute, ∀ r : VPCRoute, ∀ post : List VPCRoute,
      (∀ q ∈ pre, (isDefaultRoute q && decisiveTarget q.target_type) = false) →
      isDefaultRoute r = true →
      ((r.target_type = RouteTargetType.igw →
          scanClassAux cur (pre ++ r :: post) = SubnetType.public) ∧
       (r.target_type = RouteTargetType.nat →
          scanClassAux cur (pre ++ r :: post) = SubnetType.private_) ∧
       (r.target_type = RouteTargetType.tgw →
          scanClassAux cur (pre ++ r :: post) = SubnetType.tgw_attached))
  | [], r, post, _, hd => by
    refine ⟨?_, ?_, ?_⟩ <;> intro ht <;>
      · rw [List.nil_append, scanClassAux_cons]
        simp [hd, ht]
  | q :: pre, r, post, hpre, hd => by
    have hq := hpre q (List.mem_cons_self q pre)
    have hrest : ∀ p ∈ pre, (isDefaultRoute p && decisiveTarget p.target_type) = false :=
      fun p hp => hpre p (List.mem_cons_of_mem q hp)
    have ih := scanClassAux_first_decisive cur pre r post hrest hd
    have hskip : scanClassAux cur (q :: (pre ++ r :: post)) =
        scanClassAux cur (pre ++ r :: post) := by
      rcases Bool.and_eq_false_iff.mp hq with h | h
      · exact scanClassAux_cons_of_not_default cur q _ h
      · exact scanClassAux_cons_of_not_decisive cur q _ h
    refine ⟨?_, ?_, ?_⟩ <;> intro ht <;>
      rw [List.cons_append, hskip]
    · exact ih.1 ht
    · exact ih.2.1 ht
    · exact ih.2.2 ht

/-- The scan ignores route states entirely. -/
theorem scanClassAux_map_state (cur : SubnetType) (f : VPCRoute → RouteState) :
    ∀ routes : List VPCRoute,
      scanClassAux cur (routes.map (mapRouteState f)) = scanClassAux cur routes
  | [] => rfl
  | r :: rs => by
    rw [List.map_cons, scanClassAux_cons, scanClassAux_cons,
      scanClassAux_map_state cur f rs]
    have hd : isDefaultRoute (mapRouteState f r) = isDefaultRoute r := rfl
    have ht : (mapRouteState f r).target_type = r.target_type := rfl
    rw [hd, ht]

/-- The keyed VPC route-table lookup commutes with the state reassignment. -/
theorem findVPCRouteTable_setRouteStates (f : VPCRoute → RouteState) (d : NetworkData)
    (i : String) :
    findVPCRouteTable (setRouteStates f d) i =
      (findVPCRouteTable d i).map (mapTableStates f) := by
  show (d.vpc_route_tables.map (mapTableStates f)).find? (fun rt => rt.id == i) = _
  rw [List.find?_map]
  rfl

/-- The effective route table of a subnet commutes with the state
reassignment. -/
theorem effectiveRouteTable_setRouteStates (f : VPCRoute → RouteState) (d : NetworkData)
    (s : Subnet) :
    effectiveRouteTable (setRouteStates f d) s =
      (effectiveRouteTable d s).map (mapTableStates f) := by
  unfold effectiveRouteTable
  rw [show findVPC (setRouteStates f d) s.vpc_id = findVPC d s.vpc_id from rfl]
  by_cases hp : pyTruthy s.route_table_id = true
  · simp [hp, findVPCRouteTable_setRouteStates]
  · have hp' : pyTruthy s.route_table_id = false := by
      cases hq : pyTruthy s.route_table_id
      · rfl
      · exact absurd hq hp
    cases hv : findVPC d s.vpc_id with
    | none => simp [hp', hv]
    | some vpc =>
      by_cases hm : pyTruthy vpc.main_route_table_id = true
      · simp [hp', hv, hm, findVPCRouteTable_setRouteStates]
      · have hm' : pyTruthy vpc.main_route_table_id = false := by
          cases hq : pyTruthy vpc.main_route_table_id
          · rfl
          · exact absurd hq hm
        simp [hp', hv, hm']

/-- Classification always merely updates the subnet's class field. -/
theorem classifySubnet_eq_update (d : NetworkData) (s : Subnet) :
    classifySubnet d s = { s with subnet_type := (classifySubnet d s).subnet_type } := by
  unfold classifySubnet
  dsimp only
  repeat' split
  all_goals rfl

/-- One subnet classifies identically in the state-reassigned catalog. -/
theorem classifySubnet_setRouteStates (f : VPCRoute → RouteState) (d : NetworkData)
    (s : Subnet) :
    classifySubnet (setRouteStates f d) s = classifySubnet d s := by
  rw [classifySubnet_eq_update (setRouteStates f d) s, classifySubnet_eq_update d s]
  have h : (classifySubnet (setRouteStates f d) s).subnet_type =
      (classifySubnet d s).subnet_type := by
    rw [classifySubnet_subnet_type, classifySubnet_subnet_type,
      effectiveRouteTable_setRouteStates]
    cases effectiveRouteTable d s with
    | none => rfl
    | some rt =>
      show scanClassAux s.subnet_type (rt.routes.map (mapRouteState f)) = _
      exact scanClassAux_map_state s.subnet_type f rt.routes
  rw [h]

/-- The asymmetric-routing findings are exactly the flagged pairs rendered
as findings. -/
theorem checkAsymmetricRouting_eq (d : NetworkData) :
    checkAsymmetricRouting d = (asymPairs d).map (fun p => mkAsymFinding p.1 p.2) := by
  unfold checkAsymmetricRouting asymPairs
  rw [List.map_flatMap]
  congr 1
  funext tgw
  rw [List.map_flatMap]
  congr 1
  funext src
  rw [List.map_filterMap]
  congr 1
  funext dst
  by_cases h1 : (src.id == dst.id) = true
  · rw [if_pos h1, if_pos h1]
    rfl
  · rw [if_neg h1, if_neg h1]
    by_cases h2 : (canReach d src dst && !canReach d dst src) = true
    · rw [if_pos h2, if_pos h2]
      rfl
    · rw [if_neg h2, if_neg h2]
      rfl

/-- `_can_reach`, read as the spec reads it: an associated, catalogued
route table with a non-blackhole route attributed to the destination whose
destination CIDR matches one of the destination's CIDRs. -/
theorem canReach_iff (d : NetworkData) (a b : TGWAttachment) :
    canReach d a b = true ↔
      ∃ rtId, a.associated_route_table_id = some rtId ∧ rtId ≠ "" ∧
        ∃ rt, findTGWRouteTable d rtId = some rt ∧
          ∃ route ∈ rt.routes, route.state ≠ RouteState.blackhole ∧
            route.attachment_id = some b.id ∧
            ∃ cidr ∈ b.cidrs, cidrMatches route.destination_cidr cidr = true := by
  unfold canReach
  cases ha : a.associated_route_table_id with
  | none => simp [ha, pyTruthy]
  | some s =>
    by_cases hs : s = ""
    · subst hs
      have hpt : pyTruthy (some "") = false := by decide
      simp [ha, hpt]
    · have hpt : pyTruthy (some s) = true := (strNonempty_iff s).mpr hs
      simp only [hpt, Bool.not_true, Bool.false_eq_true, if_false, Option.getD_some,
        Option.some.injEq]
      cases hf : findTGWRouteTable d s with
      | none =>
        simp only [hf]
        constructor
        · intro h
          cases h
        · rintro ⟨rtId, rfl, -, rt, hrt, -⟩
          rw [hf] at hrt
          exact Option.noConfusion hrt
      | some rt =>
        simp only [hf, List.any_eq_true, Bool.and_eq_true, Bool.not_eq_true',
          TGWRoute.is_blackhole, beq_eq_false_iff_ne, beq_iff_eq]
        constructor
        · rintro ⟨cidr, hcidr, route, hroute, ⟨⟨hbh, hatt⟩, hm⟩⟩
          exact ⟨s, rfl, hs, rt, hf, route, hroute, hbh, hatt, cidr, hcidr, hm⟩
        · rintro ⟨rtId, rfl, -, rt', hrt', route, hroute, hbh, hatt, cidr, hcidr, hm⟩
          rw [hf] at hrt'
          obtain rfl : rt' = rt := (Option.some.inj hrt').symm
          exact ⟨cidr, hcidr, route, hroute, ⟨⟨hbh, hatt⟩, hm⟩⟩

/-- Membership of an ordered pair among the flagged asymmetric pairs. -/
theorem mem_asymPairs (d : NetworkData) (src dst : TGWAttachment) :
    (src, dst) ∈ asymPairs d ↔
      ∃ t ∈ d.tgws, src ∈ d.tgw_attachments ∧ dst ∈ d.tgw_attachments ∧
        src.tgw_id = t.id ∧ dst.tgw_id = t.id ∧ src.id ≠ dst.id ∧
        canReach d src dst = true ∧ canReach d dst src = false := by
  unfold asymPairs tgwAtts
  rw [List.mem_flatMap]
  constructor
  · rintro ⟨t, ht, hmem⟩
    rw [List.mem_flatMap] at hmem
    obtain ⟨src', hsrc', hmem2⟩ := hmem
    rw [List.mem_filterMap] at hmem2
    obtain ⟨dst', hdst', heq⟩ := hmem2
    by_cases h1 : (src'.id == dst'.id) = true
    · rw [if_pos h1] at heq
      cases heq
    · rw [if_neg h1] at heq
      by_cases h2 : (canReach d src' dst' && !canReach d dst' src') = true
      · rw [if_pos h2] at heq
        have hpair := Option.some.inj heq
        obtain ⟨rfl, rfl⟩ : src' = src ∧ dst' = dst :=
          ⟨congrArg Prod.fst hpair, congrArg Prod.snd hpair⟩
        have hmf := List.mem_filter.mp hsrc'
        have hmf2 := List.mem_filter.mp hdst'
        rw [Bool.and_eq_true] at h2
        obtain ⟨hcr, hncr⟩ := h2
        refine ⟨t, ht, hmf.1, hmf2.1, beq_iff_eq.mp hmf.2, beq_iff_eq.mp hmf2.2,
          fun he => h1 (beq_iff_eq.mpr he), hcr, ?_⟩
        simpa using hncr
      · rw [if_neg h2] at heq
        cases heq
  · rintro ⟨t, ht, hsrc, hdst, hst, hdt, hne, hcr, hncr⟩
    refine ⟨t, ht, ?_⟩
    rw [List.mem_flatMap]
    refine ⟨src, List.mem_filter.mpr ⟨hsrc, beq_iff_eq.mpr hst⟩, ?_⟩
    rw [List.mem_filterMap]
    refine ⟨dst, List.mem_filter.mpr ⟨hdst, beq_iff_eq.mpr hdt⟩, ?_⟩
    rw [if_neg (fun h => hne (beq_iff_eq.mp h)), if_pos]
    rw [hcr, hncr]
    rfl

/-! ### Counting and membership lemmas for the overlap check -/

theorem countP_flatMap {α β : Type} (p : α → Bool) (f : β → List α) :
    ∀ l : List β, (l.flatMap f).countP p = (l.map (fun b => (f b).countP p)).sum
  | [] => rfl
  | b :: l => by
    rw [List.flatMap_cons, List.countP_append, List.map_cons, List.sum_cons,
      countP_flatMap p f l]

theorem countP_filterMap {α β : Type} (p : α → Bool) (g : β → Option α) :
    ∀ l : List β,
      (l.filterMap g).countP p = l.countP (fun b => ((g b).map p).getD false)
  | [] => rfl
  | b :: l => by
    cases hg : g b with
    | none =>
      rw [List.filterMap_cons_none hg, List.countP_cons, countP_filterMap p g l, hg]
      simp
    | some a =>
      rw [List.filterMap_cons_some hg, List.countP_cons, List.countP_cons,
        countP_filterMap p g l, hg]
      rfl

theorem countP_beq_nodup (c : String) (t : String → Bool) :
    ∀ B : List String, B.Nodup → c ∈ B →
      B.countP (fun b => (b == c) && t b) = if t c then 1 else 0
  | [], _, hc => absurd hc (List.not_mem_nil c)
  | b :: B, hnd, hc => by
    rw [List.countP_cons]
    rcases List.mem_cons.mp hc with rfl | hc'
    · have hnotin : c ∉ B := (List.nodup_cons.mp hnd).1
      have hz : B.countP (fun x => (x == c) && t x) = 0 :=
        List.countP_eq_zero.mpr (fun a ha hp => by
          have hne : a ≠ c := fun h => hnotin (h ▸ ha)
          simp [hne] at hp)
      rw [hz]
      cases ht : t c <;> simp [ht]
    · have hb : b ≠ c := fun h => (List.nodup_cons.mp hnd).1 (h ▸ hc')
      rw [countP_beq_nodup c t B (List.nodup_cons.mp hnd).2 hc']
      simp [hb]

theorem sum_map_ite_eq {α : Type} [DecidableEq α] (c : α) (k : Nat) :
    ∀ A : List α, A.Nodup → c ∈ A →
      (A.map (fun a => if a = c then k else 0)).sum = k
  | [], _, hc => absurd hc (List.not_mem_nil c)
  | a :: A, hnd, hc => by
    rw [List.map_cons, List.sum_cons]
    rcases List.mem_cons.mp hc with rfl | hc'
    · have hnotin : c ∉ A := (List.nodup_cons.mp hnd).1
      have hz : (A.map (fun x => if x = c then k else 0)).sum = 0 :=
        List.sum_eq_zero (fun x hx => by
          obtain ⟨y, hy, rfl⟩ := List.mem_map.mp hx
          have hne : y ≠ c := fun h => hnotin (h ▸ hy)
          simp [hne])
      rw [if_pos rfl, hz, Nat.add_zero]
    · have ha : a ≠ c := fun h => (List.nodup_cons.mp hnd).1 (h ▸ hc')
      rw [if_neg ha, sum_map_ite_eq c k A (List.nodup_cons.mp hnd).2 hc',
        Nat.zero_add]

/-- `overlaps` is symmetric. -/
theorem netOverlaps_comm (a b : IPNet) : netOverlaps a b = netOverlaps b a := by
  unfold netOverlaps
  by_cases hv : a.v6 = b.v6
  · rw [if_neg (fun h => h hv), if_neg (fun h => h hv.symm)]
    cases h1 : containsAddr b a.addr <;> cases h2 : containsAddr b a.broadcast <;>
      cases h3 : containsAddr a b.addr <;> cases h4 : containsAddr a b.broadcast <;>
        rfl
  · rw [if_pos hv, if_pos (fun h => hv h.symm)]

/-- The overlap test of the analyzer is symmetric in its two CIDRs. -/
theorem overlapsB_comm (c1 c2 : String) : overlapsB c1 c2 = overlapsB c2 c1 := by
  unfold overlapsB
  cases ipNetwork c1 <;> cases ipNetwork c2 <;> first | rfl | exact netOverlaps_comm ..

/-- Swapping the unordered pair leaves the matcher unchanged. -/
theorem quadMatch_comm (a b c d : String) (q : VPC × String × VPC × String) :
    quadMatch a b c d q = quadMatch c d a b q := by
  unfold quadMatch
  exact Bool.or_comm ..

/-- A flagged quadruple's two VPCs come from the scanned list, its CIDRs
from their CIDR lists, and its overlap test succeeded. -/
theorem mem_overlapCross (vpc1 vpc2 : VPC) (q : VPC × String × VPC × String)
    (hq : q ∈ overlapCross vpc1 vpc2) :
    q.1 = vpc1 ∧ q.2.2.1 = vpc2 ∧ q.2.1 ∈ vpc1.cidrs ∧ q.2.2.2 ∈ vpc2.cidrs ∧
      overlapsB q.2.1 q.2.2.2 = true := by
  unfold overlapCross at hq
  rw [List.mem_flatMap] at hq
  obtain ⟨cidr1, hc1, hq2⟩ := hq
  rw [List.mem_filterMap] at hq2
  obtain ⟨cidr2, hc2, heq⟩ := hq2
  by_cases hov : overlapsB cidr1 cidr2 = true
  · rw [if_pos hov] at heq
    obtain rfl := (Option.some.inj heq).symm
    exact ⟨rfl, rfl, hc1, hc2, hov⟩
  · rw [if_neg hov] at heq
    cases heq

/-- Both VPCs of any flagged quadruple are members of the scanned list. -/
theorem mem_overlapQuads :
    ∀ (l : List VPC) (q : VPC × String × VPC × String), q ∈ overlapQuads l →
      q.1 ∈ l ∧ q.2.2.1 ∈ l
  | [], q, hq => absurd hq (List.not_mem_nil q)
  | v :: rest, q, hq => by
    rcases List.mem_append.mp hq with hh | ht
    · unfold overlapBlock at hh
      rw [List.mem_flatMap] at hh
      obtain ⟨vpc2, hv2, hcross⟩ := hh
      obtain ⟨h1, h2, -, -, -⟩ := mem_overlapCross v vpc2 q hcross
      exact ⟨h1 ▸ List.mem_cons_self v rest, h2 ▸ List.mem_cons_of_mem v hv2⟩
    · obtain ⟨h1, h2⟩ := mem_overlapQuads rest q ht
      exact ⟨List.mem_cons_of_mem v h1, List.mem_cons_of_mem v h2⟩

/-- The overlap findings are exactly the flagged quadruples rendered as
findings. -/
theorem checkCidrOverlaps_eq :
    ∀ l : List VPC,
      checkCidrOverlaps l =
        (overlapQuads l).map (fun q => mkOverlapFinding q.1 q.2.1 q.2.2.1 q.2.2.2)
  | [] => rfl
  | v :: rest => by
    show _ ++ checkCidrOverlaps rest = (overlapBlock v rest ++ overlapQuads rest).map _
    rw [List.map_append, checkCidrOverlaps_eq rest]
    congr 1
    unfold overlapBlock overlapCross
    rw [List.map_flatMap]
    congr 1
    funext vpc2
    rw [List.map_flatMap]
    congr 1
    funext cidr1
    rw [List.map_filterMap]
    congr 1
    funext cidr2
    by_cases h : overlapsB cidr1 cidr2 = true
    · rw [if_pos h, if_pos h]
      rfl
    · rw [if_neg h, if_neg h]
      rfl

/-- Count of matching quadruples in one inner pair scan, when the outer
VPC carries the first id of the pair. -/
theorem countP_overlapCross_eq (x v2 : VPC) (c1 c2 : String)
    (hne : x.id ≠ v2.id) (hc1 : c1 ∈ x.cidrs) (hc2 : c2 ∈ v2.cidrs)
    (hn1 : x.cidrs.Nodup) (hn2 : v2.cidrs.Nodup) :
    (overlapCross x v2).countP (quadMatch x.id c1 v2.id c2) =
      if overlapsB c1 c2 = true then 1 else 0 := by
  unfold overlapCross
  rw [countP_flatMap]
  have inner : ∀ cidr1,
      (v2.cidrs.filterMap (fun cidr2 =>
          if overlapsB cidr1 cidr2 then some (x, cidr1, v2, cidr2)
          else none)).countP (quadMatch x.id c1 v2.id c2) =
        if cidr1 = c1 then (if overlapsB c1 c2 = true then 1 else 0) else 0 := by
    intro cidr1
    rw [countP_filterMap]
    have hcongr : ∀ b ∈ v2.cidrs,
        ((((if overlapsB cidr1 b then some (x, cidr1, v2, b) else none).map
            (quadMatch x.id c1 v2.id c2)).getD false) = true) ↔
        (((b == c2) && (overlapsB cidr1 b && (cidr1 == c1))) = true) := by
      intro b _
      by_cases hov : overlapsB cidr1 b = true
      · rw [if_pos hov]
        show (quadMatch x.id c1 v2.id c2 (x, cidr1, v2, b) = true) ↔ _
        unfold quadMatch
        have h2 : (x.id == v2.id) = false := beq_eq_false_iff_ne.mpr hne
        simp only [hov]
        cases hb1 : (cidr1 == c1) <;> cases hb2 : (b == c2) <;> simp [h2, hb1, hb2]
      · have hov' : overlapsB cidr1 b = false := by
          revert hov
          cases overlapsB cidr1 b <;> simp
        rw [if_neg hov]
        simp [hov']
    rw [List.countP_congr hcongr,
      countP_beq_nodup c2 (fun b => overlapsB cidr1 b && (cidr1 == c1)) v2.cidrs hn2 hc2]
    by_cases he : cidr1 = c1
    · subst he
      cases hov : overlapsB cidr1 c2 <;> simp [hov]
    · have : (cidr1 == c1) = false := beq_eq_false_iff_ne.mpr he
      simp [this, he]
  rw [List.map_congr_left (fun cidr1 _ => inner cidr1)]
  exact sum_map_ite_eq c1 _ x.cidrs hn1 hc1

/-- One inner pair scan contributes nothing when neither of its two VPCs
carries the second id of the pair. -/
theorem countP_overlapCross_zero (x vpc2 : VPC) (v1id c1 v2id c2 : String)
    (hA : vpc2.id ≠ v2id) (hB : x.id ≠ v2id) :
    (overlapCross x vpc2).countP (quadMatch v1id c1 v2id c2) = 0 := by
  apply List.countP_eq_zero.mpr
  intro q hq hp
  obtain ⟨hq1, hq2, -, -, -⟩ := mem_overlapCross x vpc2 q hq
  simp [quadMatch, hq1, hq2, hA, hB] at hp

/-- A quadruple of one outer block has the outer VPC first and an inner
VPC third. -/
theorem mem_overlapBlock (x : VPC) (others : List VPC)
    (q : VPC × String × VPC × String) (hq : q ∈ overlapBlock x others) :
    q.1 = x ∧ q.2.2.1 ∈ others := by
  unfold overlapBlock at hq
  rw [List.mem_flatMap] at hq
  obtain ⟨vpc2, hv2, hcross⟩ := hq
  obtain ⟨h1, h2, -, -, -⟩ := mem_overlapCross x vpc2 q hcross
  exact ⟨h1, h2 ▸ hv2⟩

/-- Count of matching quadruples in one outer block, when the outer VPC
carries the first id of the pair and the second id names a unique inner
VPC. -/
theorem countP_overlapBlock_head (x : VPC) (rest : List VPC) (v2 : VPC) (c1 c2 : String)
    (hids : (rest.map VPC.id).Nodup) (hv2 : v2 ∈ rest) (hne : x.id ≠ v2.id)
    (hc1 : c1 ∈ x.cidrs) (hc2 : c2 ∈ v2.cidrs)
    (hn1 : x.cidrs.Nodup) (hn2 : v2.cidrs.Nodup) :
    (overlapBlock x rest).countP (quadMatch x.id c1 v2.id c2) =
      if overlapsB c1 c2 = true then 1 else 0 := by
  unfold overlapBlock
  rw [countP_flatMap]
  have hcongr : ∀ w ∈ rest,
      (overlapCross x w).countP (quadMatch x.id c1 v2.id c2) =
        (if w = v2 then (if overlapsB c1 c2 = true then 1 else 0) else 0) := by
    intro w hw
    by_cases hwv : w = v2
    · subst hwv
      rw [if_pos rfl]
      exact countP_overlapCross_eq x w c1 c2 hne hc1 hc2 hn1 hn2
    · rw [if_neg hwv]
      have hwid : w.id ≠ v2.id := fun h =>
        hwv (List.inj_on_of_nodup_map hids hw hv2 h)
      exact countP_overlapCross_zero x w x.id c1 v2.id c2 hwid hne
  rw [List.map_congr_left hcongr]
  exact sum_map_ite_eq v2 _ rest hids.of_map hv2

/-- The central count: in a catalog with unique VPC ids, the flagged
quadruples contain each overlapping unordered pair exactly once, and each
non-overlapping or unparseable pair not at all. -/
theorem countP_overlapQuads :
    ∀ vpcs : List VPC, (vpcs.map VPC.id).Nodup →
      ∀ (v1 v2 : VPC) (c1 c2 : String),
        v1 ∈ vpcs → v2 ∈ vpcs → v1.id ≠ v2.id →
        c1 ∈ v1.cidrs → c2 ∈ v2.cidrs → v1.cidrs.Nodup → v2.cidrs.Nodup →
        (overlapQuads vpcs).countP (quadMatch v1.id c1 v2.id c2) =
          if overlapsB c1 c2 = true then 1 else 0
  | [], _, v1, _, _, _, hv1, _, _, _, _, _, _ => absurd hv1 (List.not_mem_nil v1)
  | x :: rest, hids, v1, v2, c1, c2, hv1, hv2, hne, hc1, hc2, hn1, hn2 => by
    have hx : x.id ∉ rest.map VPC.id := (List.nodup_cons.mp hids).1
    have hrest : (rest.map VPC.id).Nodup := (List.nodup_cons.mp hids).2
    show (overlapBlock x rest ++ overlapQuads rest).countP _ = _
    rw [List.countP_append]
    rcases List.mem_cons.mp hv1 with h1 | hv1'
    · rcases List.mem_cons.mp hv2 with h2 | hv2'
      · exact absurd (show v1.id = v2.id by rw [h1, h2]) hne
      · subst h1
        have htail : (overlapQuads rest).countP (quadMatch v1.id c1 v2.id c2) = 0 := by
          apply List.countP_eq_zero.mpr
          intro q hq hp
          obtain ⟨hm1, hm2⟩ := mem_overlapQuads rest q hq
          have hid1 : q.1.id ≠ v1.id := fun h =>
            hx (h ▸ List.mem_map_of_mem VPC.id hm1)
          have hid2 : q.2.2.1.id ≠ v1.id := fun h =>
            hx (h ▸ List.mem_map_of_mem VPC.id hm2)
          simp [quadMatch, hid1, hid2] at hp
        rw [htail, countP_overlapBlock_head v1 rest v2 c1 c2 hrest hv2' hne hc1 hc2 hn1 hn2,
          Nat.add_zero]
    · rcases List.mem_cons.mp hv2 with h2 | hv2'
      · subst h2
        have hqm : quadMatch v1.id c1 v2.id c2 = quadMatch v2.id c2 v1.id c1 :=
          funext (quadMatch_comm v1.id c1 v2.id c2)
        have hov : (if overlapsB c1 c2 = true then 1 else 0) =
            (if overlapsB c2 c1 = true then (1 : Nat) else 0) := by
          rw [overlapsB_comm]
        rw [hqm, hov]
        have htail : (overlapQuads rest).countP (quadMatch v2.id c2 v1.id c1) = 0 := by
          apply List.countP_eq_zero.mpr
          intro q hq hp
          obtain ⟨hm1, hm2⟩ := mem_overlapQuads rest q hq
          have hid1 : q.1.id ≠ v2.id := fun h =>
            hx (h ▸ List.mem_map_of_mem VPC.id hm1)
          have hid2 : q.2.2.1.id ≠ v2.id := fun h =>
            hx (h ▸ List.mem_map_of_mem VPC.id hm2)
          simp [quadMatch, hid1, hid2] at hp
        rw [htail, countP_overlapBlock_head v2 rest v1 c2 c1 hrest hv1'
          (fun h => hne h.symm) hc2 hc1 hn2 hn1, Nat.add_zero]
      · have hhead : (overlapBlock x rest).countP (quadMatch v1.id c1 v2.id c2) = 0 := by
          apply List.countP_eq_zero.mpr
          intro q hq hp
          obtain ⟨hm1, -⟩ := mem_overlapBlock x rest q hq
          have hid1 : q.1.id ≠ v1.id := fun h =>
            hx (hm1 ▸ h ▸ List.mem_map_of_mem VPC.id hv1')
          have hid2 : q.1.id ≠ v2.id := fun h =>
            hx (hm1 ▸ h ▸ List.mem_map_of_mem VPC.id hv2')
          simp [quadMatch, hid1, hid2] at hp
        rw [hhead, countP_overlapQuads rest hrest v1 v2 c1 c2 hv1' hv2' hne hc1 hc2 hn1 hn2,
          Nat.zero_add]

/-- With unique VPC ids, no flagged quadruple compares a VPC against
itself. -/
theorem overlapQuads_no_self :
    ∀ vpcs : List VPC, (vpcs.map VPC.id).Nodup →
      ∀ q ∈ overlapQuads vpcs, q.1.id ≠ q.2.2.1.id
  | [], _, q, hq => absurd hq (List.not_mem_nil q)
  | x :: rest, hids, q, hq => by
    have hx : x.id ∉ rest.map VPC.id := (List.nodup_cons.mp hids).1
    rcases List.mem_append.mp hq with hh | ht
    · obtain ⟨h1, h2⟩ := mem_overlapBlock x rest q hh
      intro heq
      rw [h1] at heq
      exact hx (by rw [heq]; exact List.mem_map_of_mem VPC.id h2)
    · exact overlapQuads_no_self rest (List.nodup_cons.mp hids).2 q ht

/-! ### Lemmas for the association round-trip -/

/-- One accepted record updates the matched table and the matched
attachment; the round-trip invariant and the freshness and presence of
untouched ids survive. -/
theorem record_step (rtId : String) (d : NetworkData) (rec : RawAssociation)
    (hGood : Good d)
    (hfp : ∀ i, recAccepted rec = some i → Fresh d i ∧ Pres d i) :
    Good (applyAssociationRecord rtId d rec) ∧
    (∀ j, Fresh d j → recAccepted rec ≠ some j →
      Fresh (applyAssociationRecord rtId d rec) j) ∧
    (∀ i, Pres d i → Pres (applyAssociationRecord rtId d rec) i) := by
  cases hacc : recAccepted rec with
  | none =>
    unfold applyAssociationRecord
    rw [hacc]
    exact ⟨hGood, fun j hj _ => hj, fun i hi => hi⟩
  | some attId =>
    obtain ⟨hfresh, hpres⟩ := hfp attId hacc
    have hfind : (findTGWAttachment d attId).isSome = true := by
      rw [findTGWAttachment]
      rw [show ((d.tgw_attachments.find? (fun a => a.id == attId)).isSome = true) =
        ((d.tgw_attachments.find? (fun a => a.id == attId)).isSome : Prop) from rfl]
      rw [List.find?_isSome]
      obtain ⟨a, ha, hid⟩ := hpres
      exact ⟨a, ha, beq_iff_eq.mpr hid⟩
    have hshape : applyAssociationRecord rtId d rec =
        { d with
          tgw_route_tables := d.tgw_route_tables.map (fun rt =>
            if rt.id == rtId then { rt with associations := rt.associations ++ [attId] }
            else rt),
          tgw_attachments := d.tgw_attachments.map (fun a =>
            if a.id == attId then { a with associated_route_table_id := some rtId }
            else a) } := by
      unfold applyAssociationRecord
      rw [hacc]
      dsimp only
      rw [if_pos (show (findTGWAttachment
        { d with tgw_route_tables := d.tgw_route_tables.map (fun rt =>
            if rt.id == rtId then { rt with associations := rt.associations ++ [attId] }
            else rt) } attId).isSome = true from hfind)]
    rw [hshape]
    refine ⟨?_, ?_, ?_⟩
    · intro t' ht' a' ha'
      obtain ⟨t, ht, rfl⟩ := List.mem_map.mp ht'
      obtain ⟨a, ha, rfl⟩ := List.mem_map.mp ha'
      by_cases h1 : (t.id == rtId) = true <;> by_cases h2 : (a.id == attId) = true
      · rw [if_pos h1, if_pos h2]
        have hteq : t.id = rtId := beq_iff_eq.mp h1
        have haeq : a.id = attId := beq_iff_eq.mp h2
        show a.id ∈ t.associations ++ [attId] ↔ some rtId = some t.id
        constructor
        · intro _
          rw [hteq]
        · intro _
          rw [haeq]
          exact List.mem_append_right _ (List.mem_singleton.mpr rfl)
      · rw [if_pos h1, if_neg h2]
        show a.id ∈ t.associations ++ [attId] ↔ a.associated_route_table_id = some t.id
        constructor
        · intro hmem
          rcases List.mem_append.mp hmem with hmem | hmem
          · exact (hGood t ht a ha).mp hmem
          · exact absurd (List.mem_singleton.mp hmem) (fun h => h2 (beq_iff_eq.mpr h))
        · intro hp
          exact List.mem_append_left _ ((hGood t ht a ha).mpr hp)
      · rw [if_neg h1, if_pos h2]
        have haeq : a.id = attId := beq_iff_eq.mp h2
        show a.id ∈ t.associations ↔ some rtId = some t.id
        constructor
        · intro hmem
          rw [haeq] at hmem
          exact absurd hmem (hfresh.1 t ht)
        · intro hp
          exact absurd (beq_iff_eq.mpr (Option.some.inj hp).symm) h1
      · rw [if_neg h1, if_neg h2]
        exact hGood t ht a ha
    · intro j hj hne
      have hjne : j ≠ attId := fun h => hne (congrArg some h.symm)
      refine ⟨?_, ?_⟩
      · intro t' ht'
        obtain ⟨t, ht, rfl⟩ := List.mem_map.mp ht'
        by_cases h1 : (t.id == rtId) = true
        · rw [if_pos h1]
          show j ∉ t.associations ++ [attId]
          intro hmem
          rcases List.mem_append.mp hmem with hmem | hmem
          · exact hj.1 t ht hmem
          · exact hjne (List.mem_singleton.mp hmem)
        · rw [if_neg h1]
          exact hj.1 t ht
      · intro a' ha' hid
        obtain ⟨a, ha, rfl⟩ := List.mem_map.mp ha'
        by_cases h2 : (a.id == attId) = true
        · rw [if_pos h2] at hid
          have haj : a.id = j := hid
          exact absurd (haj.symm.trans (beq_iff_eq.mp h2)) hjne
        · rw [if_neg h2] at hid ⊢
          exact hj.2 a ha hid
    · intro i hi
      obtain ⟨a, ha, hid⟩ := hi
      refine ⟨if (a.id == attId) = true then
          { a with associated_route_table_id := some rtId } else a,
        List.mem_map_of_mem _ ha, ?_⟩
      by_cases h2 : (a.id == attId) = true
      · rw [if_pos h2]
        exact hid
      · rw [if_neg h2]
        exact hid

/-- Folding one file's records keeps the invariant. -/
theorem fold_records (rtId : String) :
    ∀ (recs : List RawAssociation) (d : NetworkData),
      Good d →
      (∀ i ∈ recs.filterMap recAccepted, Fresh d i ∧ Pres d i) →
      (recs.filterMap recAccepted).Nodup →
      Good (recs.foldl (applyAssociationRecord rtId) d) ∧
      (∀ j, Fresh d j → j ∉ recs.filterMap recAccepted →
        Fresh (recs.foldl (applyAssociationRecord rtId) d) j) ∧
      (∀ i, Pres d i → Pres (recs.foldl (applyAssociationRecord rtId) d) i)
  | [], d, hG, _, _ => ⟨hG, fun j hj _ => hj, fun i hi => hi⟩
  | rec :: recs, d, hG, hFP, hND => by
    rw [List.foldl_cons]
    obtain ⟨hG1, hFr1, hPr1⟩ := record_step rtId d rec hG (fun i hi =>
      hFP i (List.mem_filterMap.mpr ⟨rec, List.mem_cons_self rec recs, hi⟩))
    cases hacc : recAccepted rec with
    | none =>
      rw [List.filterMap_cons_none hacc] at hFP hND
      have hFP1 : ∀ i ∈ recs.filterMap recAccepted,
          Fresh (applyAssociationRecord rtId d rec) i ∧
          Pres (applyAssociationRecord rtId d rec) i := fun i hi =>
        ⟨hFr1 i (hFP i hi).1 (by rw [hacc]; exact fun h => Option.noConfusion h),
         hPr1 i (hFP i hi).2⟩
      obtain ⟨hG2, hFr2, hPr2⟩ := fold_records rtId recs _ hG1 hFP1 hND
      refine ⟨hG2, ?_, ?_⟩
      · intro j hj hjmem
        have hjmem' : j ∉ recs.filterMap recAccepted := by
          rw [List.filterMap_cons_none hacc] at hjmem
          exact hjmem
        exact hFr2 j (hFr1 j hj (by rw [hacc]; exact fun h => Option.noConfusion h)) hjmem'
      · intro i hi
        exact hPr2 i (hPr1 i hi)
    | some a0 =>
      rw [List.filterMap_cons_some hacc] at hFP hND
      have hnotin : a0 ∉ recs.filterMap recAccepted := (List.nodup_cons.mp hND).1
      have hFP1 : ∀ i ∈ recs.filterMap recAccepted,
          Fresh (applyAssociationRecord rtId d rec) i ∧
          Pres (applyAssociationRecord rtId d rec) i := fun i hi =>
        ⟨hFr1 i (hFP i (List.mem_cons_of_mem a0 hi)).1
            (by rw [hacc]; exact fun h => hnotin ((Option.some.inj h) ▸ hi)),
         hPr1 i (hFP i (List.mem_cons_of_mem a0 hi)).2⟩
      obtain ⟨hG2, hFr2, hPr2⟩ :=
        fold_records rtId recs _ hG1 hFP1 (List.nodup_cons.mp hND).2
      refine ⟨hG2, ?_, ?_⟩
      · intro j hj hjmem
        rw [List.filterMap_cons_some hacc] at hjmem
        have hj1 : j ≠ a0 := fun h => hjmem (h ▸ List.mem_cons_self a0 _)
        have hj2 : j ∉ recs.filterMap recAccepted :=
          fun h => hjmem (List.mem_cons_of_mem a0 h)
        exact hFr2 j (hFr1 j hj (by rw [hacc]; exact fun h => hj1 (Option.some.inj h).symm))
          hj2
      · intro i hi
        exact hPr2 i (hPr1 i hi)

/-- One batch keeps the invariant: skipped entirely when its table id is
not in the catalog. -/
theorem batch_step (b : String × List RawAssociation) (d : NetworkData)
    (hG : Good d)
    (hFP : ∀ i ∈ b.2.filterMap recAccepted, Fresh d i ∧ Pres d i)
    (hND : (b.2.filterMap recAccepted).Nodup) :
    Good (applyAssociationBatch d b) ∧
    (∀ j, Fresh d j → j ∉ b.2.filterMap recAccepted →
      Fresh (applyAssociationBatch d b) j) ∧
    (∀ i, Pres d i → Pres (applyAssociationBatch d b) i) := by
  unfold applyAssociationBatch
  by_cases hf : (findTGWRouteTable d b.1).isSome = true
  · rw [if_pos hf]
    exact fold_records b.1 b.2 d hG hFP hND
  · rw [if_neg hf]
    exact ⟨hG, fun j hj _ => hj, fun i hi => hi⟩

/-- The whole association phase establishes the round-trip invariant. -/
theorem applyAssociations_good :
    ∀ (batches : List (String × List RawAssociation)) (d : NetworkData),
      Good d →
      (∀ i ∈ acceptedIds batches, Fresh d i ∧ Pres d i) →
      (acceptedIds batches).Nodup →
      Good (applyAssociations d batches)
  | [], d, hG, _, _ => hG
  | b :: batches, d, hG, hFP, hND => by
    have hsplit : acceptedIds (b :: batches) =
        b.2.filterMap recAccepted ++ acceptedIds batches := rfl
    rw [hsplit] at hFP hND
    rw [List.nodup_append] at hND
    obtain ⟨hnd1, hnd2, hdisj⟩ := hND
    obtain ⟨hG1, hFr1, hPr1⟩ := batch_step b d hG
      (fun i hi => hFP i (List.mem_append_left _ hi)) hnd1
    show Good (applyAssociations (applyAssociationBatch d b) batches)
    apply applyAssociations_good batches _ hG1 _ hnd2
    intro i hi
    have hf := hFP i (List.mem_append_right _ hi)
    exact ⟨hFr1 i hf.1 (fun hmem => hdisj hmem hi), hPr1 i hf.2⟩

/-! ## Claim theorems -/

/-- C2: the CIDR-match predicate of the analyzer satisfies the spec's rule:
a route destination literally `0.0.0.0/0` matches every target; otherwise,
when both strings parse as IP networks, the route matches exactly when the
target network is a sub-network of (or identical to) the route network; and
when either string fails to parse, the predicate degrades to exact string
equality. -/
theorem claim_C2_cidr_match_rule (route target : String) :
    cidrMatches route target = cidrMatchesSpec route target := by
  by_cases h0 : (route == "0.0.0.0/0") = true
  · unfold cidrMatches cidrMatchesSpec
    rw [if_pos h0, if_pos h0]
  · unfold cidrMatches cidrMatchesSpec
    rw [if_neg h0, if_neg h0]
    cases h1 : ipNetwork route with
    | none => cases h2 : ipNetwork target <;> rfl
    | some route_net =>
      cases h2 : ipNetwork target with
      | none => rfl
      | some target_net =>
        by_cases hv : target_net.v6 = route_net.v6
        · by_cases he : route_net = target_net
          · subst he
            simp [subnetOfExc, isSubnetworkOf, hv]
          · simp only [subnetOfExc, hv, isSubnetworkOf]
            simp [he, hv]
        · have hne : route ≠ target := by
            intro heq
            rw [heq, h2] at h1
            exact hv (congrArg IPNet.v6 (Option.some.inj h1))
          have hb : (route == target) = false := beq_eq_false_iff_ne.mpr hne
          have hvb : (target_net.v6 == route_net.v6) = false := by
            simp [hv]
          simp only [subnetOfExc, isSubnetworkOf, hv]
          simp [hb, hvb]
          rw [if_neg hv]

/-- C8 counterexample: a record whose gateway-id field is present but
matches no dispatch prefix is NOT resolved by the gateway-id rule alone —
the NAT-gateway field is still consulted, so the claimed independence from
later fields fails at this input. -/
theorem claim_C8_counterexample :
    pyTruthy (RawVPCRoute.mk (some "gw-odd") (some "nat-1") none none none).gateway_id = true ∧
    parseVPCRouteTarget (RawVPCRoute.mk (some "gw-odd") (some "nat-1") none none none) =
      (RouteTargetType.nat, "nat-1") ∧
    parseVPCRouteTarget (RawVPCRoute.mk (some "gw-odd") none none none none) =
      (RouteTargetType.unknown, "") ∧
    parseVPCRouteTarget (RawVPCRoute.mk (some "gw-odd") (some "nat-1") none none none) ≠
      parseVPCRouteTarget (RawVPCRoute.mk (some "gw-odd") none none none none) := by
  decide

/-- C8 (amended): route-target resolution evaluates the raw fields in
strict priority order, with one amendment to the claim: a present
gateway-id that matches neither `local` nor any dispatch prefix does not
resolve the record — evaluation falls through to the later fields exactly
as if the gateway-id were absent.  When the gateway dispatch does match,
its result alone decides, independent of every later field; and each later
field decides only when all earlier fields are falsy, with the
unknown/empty fallback last. -/
theorem claim_C8_route_target_priority :
    (∀ route : RawVPCRoute, ∀ res : RouteTargetType × String,
      pyTruthy route.gateway_id = true →
      gatewayDispatch (route.gateway_id.getD "") = some res →
      parseVPCRouteTarget route = res) ∧
    (∀ route : RawVPCRoute,
      pyTruthy route.gateway_id = true →
      gatewayDispatch (route.gateway_id.getD "") = none →
      parseVPCRouteTarget route =
        parseVPCRouteTarget { route with gateway_id := none }) ∧
    (∀ route : RawVPCRoute,
      pyTruthy route.gateway_id = false →
      pyTruthy route.nat_gateway_id = true →
      parseVPCRouteTarget route = (RouteTargetType.nat, route.nat_gateway_id.getD "")) ∧
    (∀ route : RawVPCRoute,
      pyTruthy route.gateway_id = false →
      pyTruthy route.nat_gateway_id = false →
      pyTruthy route.transit_gateway_id = true →
      parseVPCRouteTarget route = (RouteTargetType.tgw, route.transit_gateway_id.getD "")) ∧
    (∀ route : RawVPCRoute,
      pyTruthy route.gateway_id = false →
      pyTruthy route.nat_gateway_id = false →
      pyTruthy route.transit_gateway_id = false →
      pyTruthy route.vpc_peering_id = true →
      parseVPCRouteTarget route = (RouteTargetType.vpc_peering, route.vpc_peering_id.getD "")) ∧
    (∀ route : RawVPCRoute,
      pyTruthy route.gateway_id = false →
      pyTruthy route.nat_gateway_id = false →
      pyTruthy route.transit_gateway_id = false →
      pyTruthy route.vpc_peering_id = false →
      pyTruthy route.network_interface_id = true →
      parseVPCRouteTarget route = (RouteTargetType.eni, route.network_interface_id.getD "")) ∧
    (∀ route : RawVPCRoute,
      pyTruthy route.gateway_id = false →
      pyTruthy route.nat_gateway_id = false →
      pyTruthy route.transit_gateway_id = false →
      pyTruthy route.vpc_peering_id = false →
      pyTruthy route.network_interface_id = false →
      parseVPCRouteTarget route = (RouteTargetType.unknown, "")) ∧
    gatewayDispatch "local" = some (RouteTargetType.local_, "local") ∧
    gatewayDispatch "igw-1" = some (RouteTargetType.igw, "igw-1") ∧
    gatewayDispatch "vgw-1" = some (RouteTargetType.vgw, "vgw-1") ∧
    gatewayDispatch "eigw-1" = some (RouteTargetType.egress_igw, "eigw-1") ∧
    gatewayDispatch "vpce-1" = some (RouteTargetType.vpc_endpoint, "vpce-1") ∧
    gatewayDispatch "gw-odd" = none := by
  refine ⟨?_, ?_, ?_, ?_, ?_, ?_, ?_, by decide, by decide, by decide, by decide, by decide,
    by decide⟩
  · intro route res hg hd
    simp [parseVPCRouteTarget, hg, hd]
  · intro route hg hd
    simp [parseVPCRouteTarget, hg, hd, pyTruthy]
  · intro route hg hn
    simp [parseVPCRouteTarget, hg, hn]
  · intro route hg hn ht
    simp [parseVPCRouteTarget, hg, hn, ht]
  · intro route hg hn ht hp
    simp [parseVPCRouteTarget, hg, hn, ht, hp]
  · intro route hg hn ht hp he
    simp [parseVPCRouteTarget, hg, hn, ht, hp, he]
  · intro route hg hn ht hp he
    simp [parseVPCRouteTarget, hg, hn, ht, hp, he]

/-- C8 amended-claim witness: the amended theorem applied at concrete
records. -/
theorem claim_C8_route_target_priority_witness :
    parseVPCRouteTarget (RawVPCRoute.mk (some "igw-9") (some "nat-1") none none none) =
      (RouteTargetType.igw, "igw-9") ∧
    parseVPCRouteTarget (RawVPCRoute.mk (some "gw-odd") (some "nat-1") none none none) =
      parseVPCRouteTarget (RawVPCRoute.mk none (some "nat-1") none none none) ∧
    parseVPCRouteTarget (RawVPCRoute.mk none (some "nat-1") none none none) =
      (RouteTargetType.nat, "nat-1") ∧
    parseVPCRouteTarget (RawVPCRoute.mk none none none none none) =
      (RouteTargetType.unknown, "") := by
  refine ⟨?_, ?_, ?_, ?_⟩
  · exact claim_C8_route_target_priority.1
      (RawVPCRoute.mk (some "igw-9") (some "nat-1") none none none)
      (RouteTargetType.igw, "igw-9") (by decide) (by decide)
  · exact claim_C8_route_target_priority.2.1
      (RawVPCRoute.mk (some "gw-odd") (some "nat-1") none none none) (by decide) (by decide)
  · exact claim_C8_route_target_priority.2.2.1
      (RawVPCRoute.mk none (some "nat-1") none none none) (by decide) (by decide)
  · exact claim_C8_route_target_priority.2.2.2.2.2.2.1
      (RawVPCRoute.mk none none none none none) (by decide) (by decide) (by decide) (by decide)
      (by decide)

/-- C5 counterexample: an attachment whose raw record has an empty
resource-owner id and a known (non-empty) TGW-owner id gets
`is_cross_account = False` even though its resource-owner id differs from
the effective owner id, so the claimed equivalence fails at this input. -/
theorem claim_C5_counterexample :
    (loadTGWAttachment "111111111111"
      (RawTGWAttachment.mk "tgw-attach-1" "tgw-1" "vpc" "vpc-1" "" "123456789012"
        "available" "")).is_cross_account = false ∧
    ¬ ((loadTGWAttachment "111111111111"
        (RawTGWAttachment.mk "tgw-attach-1" "tgw-1" "vpc" "vpc-1" "" "123456789012"
          "available" "")).is_cross_account = true ↔
      (loadTGWAttachment "111111111111"
        (RawTGWAttachment.mk "tgw-attach-1" "tgw-1" "vpc" "vpc-1" "" "123456789012"
          "available" "")).resource_owner_id ≠
      (if (loadTGWAttachment "111111111111"
          (RawTGWAttachment.mk "tgw-attach-1" "tgw-1" "vpc" "vpc-1" "" "123456789012"
            "available" "")).tgw_owner_id ≠ "" then
        (loadTGWAttachment "111111111111"
          (RawTGWAttachment.mk "tgw-attach-1" "tgw-1" "vpc" "vpc-1" "" "123456789012"
            "available" "")).tgw_owner_id
      else "111111111111")) := by
  decide

/-- C5 (amended): for every attachment built by the loader,
`is_cross_account` is true iff the resource-owner id is non-empty and
differs from the effective owner id, where the effective owner is the
TGW-owner id when that is non-empty, else the local account id when that is
non-empty; when the resource-owner id is empty, or both candidate owner ids
are empty, the flag is false. -/
theorem claim_C5_cross_account_flag (localId : String) (raws : List RawTGWAttachment) :
    ∀ a ∈ loadTGWAttachments localId raws,
      (a.is_cross_account = true ↔
        (a.resource_owner_id ≠ "" ∧
          ((a.tgw_owner_id ≠ "" ∧ a.resource_owner_id ≠ a.tgw_owner_id) ∨
           (a.tgw_owner_id = "" ∧ localId ≠ "" ∧ a.resource_owner_id ≠ localId)))) := by
  intro a ha
  rw [loadTGWAttachments, List.mem_map] at ha
  obtain ⟨raw, -, rfl⟩ := ha
  simp only [loadTGWAttachment, computeCrossAccount]
  by_cases h1 : raw.tgw_owner_id = "" <;> by_cases h2 : raw.resource_owner_id = "" <;>
    by_cases h3 : localId = "" <;>
      simp_all [← strEmpty_iff, bne_iff_ne, Bool.not_eq_true, Bool.not_eq_false,
        List.isEmpty_iff]

/-- C5 amended-claim witness: the amended equivalence applied to a concrete
cross-account attachment record. -/
theorem claim_C5_cross_account_flag_witness :
    ((loadTGWAttachment "111111111111"
      (RawTGWAttachment.mk "tgw-attach-2" "tgw-1" "vpc" "vpc-2" "222222222222"
        "123456789012" "available" "")).is_cross_account = true ↔
      ((loadTGWAttachment "111111111111"
        (RawTGWAttachment.mk "tgw-attach-2" "tgw-1" "vpc" "vpc-2" "222222222222"
          "123456789012" "available" "")).resource_owner_id ≠ "" ∧
        (((loadTGWAttachment "111111111111"
          (RawTGWAttachment.mk "tgw-attach-2" "tgw-1" "vpc" "vpc-2" "222222222222"
            "123456789012" "available" "")).tgw_owner_id ≠ "" ∧
          (loadTGWAttachment "111111111111"
            (RawTGWAttachment.mk "tgw-attach-2" "tgw-1" "vpc" "vpc-2" "222222222222"
              "123456789012" "available" "")).resource_owner_id ≠
          (loadTGWAttachment "111111111111"
            (RawTGWAttachment.mk "tgw-attach-2" "tgw-1" "vpc" "vpc-2" "222222222222"
              "123456789012" "available" "")).tgw_owner_id) ∨
         ((loadTGWAttachment "111111111111"
            (RawTGWAttachment.mk "tgw-attach-2" "tgw-1" "vpc" "vpc-2" "222222222222"
              "123456789012" "available" "")).tgw_owner_id = "" ∧
          "111111111111" ≠ "" ∧
          (loadTGWAttachment "111111111111"
            (RawTGWAttachment.mk "tgw-attach-2" "tgw-1" "vpc" "vpc-2" "222222222222"
              "123456789012" "available" "")).resource_owner_id ≠ "111111111111")))) :=
  claim_C5_cross_account_flag "111111111111"
    [RawTGWAttachment.mk "tgw-attach-2" "tgw-1" "vpc" "vpc-2" "222222222222"
      "123456789012" "available" ""]
    (loadTGWAttachment "111111111111"
      (RawTGWAttachment.mk "tgw-attach-2" "tgw-1" "vpc" "vpc-2" "222222222222"
        "123456789012" "available" ""))
    (List.mem_singleton.mpr rfl)

/-- C3: subnet classification resolves the effective route table as the
explicit `route_table_id`, else the VPC's main route table; a subnet
without a resolvable catalog table is isolated; on a resolved table, the
scan in table order reaches class public/private/tgw-attached from the
first default route targeting IGW/NAT/TGW; a table without any default
route leaves the subnet isolated; and the spec's two examples hold: a
`[(0.0.0.0/0, nat), (10.0.0.0/8, local)]` table classifies private and an
empty table classifies isolated. -/
theorem claim_C3_subnet_classification :
    (∀ (d : NetworkData) (s : Subnet),
      effectiveRouteTable d s = none →
      (classifySubnet d s).subnet_type = SubnetType.isolated) ∧
    (∀ (d : NetworkData) (s : Subnet) (rt : VPCRouteTable),
      effectiveRouteTable d s = some rt →
      (classifySubnet d s).subnet_type = scanClassAux s.subnet_type rt.routes) ∧
    (∀ (cur : SubnetType) (pre : List VPCRoute) (r : VPCRoute) (post : List VPCRoute),
      (∀ q ∈ pre, isDefaultRoute q = false) →
      isDefaultRoute r = true →
      ((r.target_type = RouteTargetType.igw →
          scanClassAux cur (pre ++ r :: post) = SubnetType.public) ∧
       (r.target_type = RouteTargetType.nat →
          scanClassAux cur (pre ++ r :: post) = SubnetType.private_) ∧
       (r.target_type = RouteTargetType.tgw →
          scanClassAux cur (pre ++ r :: post) = SubnetType.tgw_attached))) ∧
    (∀ (d : NetworkData) (s : Subnet) (rt : VPCRouteTable),
      s.subnet_type = SubnetType.isolated →
      effectiveRouteTable d s = some rt →
      (∀ q ∈ rt.routes, isDefaultRoute q = false) →
      (classifySubnet d s).subnet_type = SubnetType.isolated) ∧
    (classifySubnet exClassifyData exSubnet1).subnet_type = SubnetType.private_ ∧
    (classifySubnet exClassifyData exSubnet2).subnet_type = SubnetType.isolated := by
  refine ⟨?_, ?_, ?_, ?_, by decide, by decide⟩
  · intro d s h
    rw [classifySubnet_subnet_type, h]
  · intro d s rt h
    rw [classifySubnet_subnet_type, h]
  · intro cur pre r post hpre hd
    exact scanClassAux_first_decisive cur pre r post
      (fun q hq => by rw [hpre q hq, Bool.false_and]) hd
  · intro d s rt hs h hnd
    rw [classifySubnet_subnet_type, h]
    show scanClassAux s.subnet_type rt.routes = SubnetType.isolated
    rw [scanClassAux_of_no_default s.subnet_type rt.routes hnd, hs]

/-- C3 witness: the classification clauses applied to the concrete
scenario catalog. -/
theorem claim_C3_subnet_classification_witness :
    (classifySubnet exClassifyData exSubnet1).subnet_type =
      scanClassAux exSubnet1.subnet_type exMainTable.routes ∧
    scanClassAux SubnetType.isolated
      ([VPCRoute.mk "10.1.0.0/16" RouteTargetType.local_ "local" RouteState.active] ++
        VPCRoute.mk "0.0.0.0/0" RouteTargetType.igw "igw-1" RouteState.active :: []) =
      SubnetType.public ∧
    (classifySubnet exClassifyData exSubnet2).subnet_type = SubnetType.isolated := by
  refine ⟨?_, ?_, ?_⟩
  · exact claim_C3_subnet_classification.2.1 exClassifyData exSubnet1 exMainTable (by decide)
  · exact (claim_C3_subnet_classification.2.2.1 SubnetType.isolated
      [VPCRoute.mk "10.1.0.0/16" RouteTargetType.local_ "local" RouteState.active]
      (VPCRoute.mk "0.0.0.0/0" RouteTargetType.igw "igw-1" RouteState.active) []
      (by decide) (by decide)).1 rfl
  · exact claim_C3_subnet_classification.2.2.2.1 exClassifyData exSubnet2 exEmptyTable
      (by decide) (by decide) (by decide)

/-- C4 counterexample: a table whose routes are
`[(0.0.0.0/0, vgw), (0.0.0.0/0, igw)]` classifies its subnet PUBLIC, not
isolated — the scan does not stop at the first default-route entry when
that entry's target is not IGW/NAT/TGW. -/
theorem claim_C4_counterexample :
    (classifySubnet exC4Data exC4Subnet).subnet_type = SubnetType.public ∧
    ¬ (classifySubnet exC4Data exC4Subnet).subnet_type = SubnetType.isolated := by
  decide

/-- C4 (amended): classification is decided by the first default-route
entry whose target type is igw, nat or tgw; a default-route entry with any
other target is skipped and the scan continues with the later routes, so
`[(0.0.0.0/0, vgw), (0.0.0.0/0, igw)]` classifies its subnet public. -/
theorem claim_C4_first_decisive_default :
    (∀ (cur : SubnetType) (r : VPCRoute) (rs : List VPCRoute),
      decisiveTarget r.target_type = false →
      scanClassAux cur (r :: rs) = scanClassAux cur rs) ∧
    (∀ (cur : SubnetType) (pre : List VPCRoute) (r : VPCRoute) (post : List VPCRoute),
      (∀ q ∈ pre, (isDefaultRoute q && decisiveTarget q.target_type) = false) →
      isDefaultRoute r = true →
      ((r.target_type = RouteTargetType.igw →
          scanClassAux cur (pre ++ r :: post) = SubnetType.public) ∧
       (r.target_type = RouteTargetType.nat →
          scanClassAux cur (pre ++ r :: post) = SubnetType.private_) ∧
       (r.target_type = RouteTargetType.tgw →
          scanClassAux cur (pre ++ r :: post) = SubnetType.tgw_attached))) ∧
    (classifySubnet exC4Data exC4Subnet).subnet_type = SubnetType.public := by
  exact ⟨scanClassAux_cons_of_not_decisive, scanClassAux_first_decisive, by decide⟩

/-- C4 amended-claim witness: the skip rule and the first-decisive rule
applied to the concrete two-default table. -/
theorem claim_C4_first_decisive_default_witness :
    scanClassAux SubnetType.isolated
      (VPCRoute.mk "0.0.0.0/0" RouteTargetType.vgw "vgw-1" RouteState.active ::
        [VPCRoute.mk "0.0.0.0/0" RouteTargetType.igw "igw-1" RouteState.active]) =
      scanClassAux SubnetType.isolated
        [VPCRoute.mk "0.0.0.0/0" RouteTargetType.igw "igw-1" RouteState.active] ∧
    scanClassAux SubnetType.isolated
      ([VPCRoute.mk "0.0.0.0/0" RouteTargetType.vgw "vgw-1" RouteState.active] ++
        VPCRoute.mk "0.0.0.0/0" RouteTargetType.igw "igw-1" RouteState.active :: []) =
      SubnetType.public := by
  refine ⟨?_, ?_⟩
  · exact claim_C4_first_decisive_default.1 SubnetType.isolated
      (VPCRoute.mk "0.0.0.0/0" RouteTargetType.vgw "vgw-1" RouteState.active)
      [VPCRoute.mk "0.0.0.0/0" RouteTargetType.igw "igw-1" RouteState.active] (by decide)
  · exact (claim_C4_first_decisive_default.2.1 SubnetType.isolated
      [VPCRoute.mk "0.0.0.0/0" RouteTargetType.vgw "vgw-1" RouteState.active]
      (VPCRoute.mk "0.0.0.0/0" RouteTargetType.igw "igw-1" RouteState.active) []
      (by decide) (by decide)).1 rfl

/-- C10: subnet classification never reads a route's state — reassigning
every VPC route's state arbitrarily leaves every subnet's class unchanged,
and concretely a blackhole default route targeting an IGW still classifies
its subnet public. -/
theorem claim_C10_classification_ignores_state :
    (∀ (d : NetworkData) (f : VPCRoute → RouteState),
      (classifySubnets (setRouteStates f d)).subnets = (classifySubnets d).subnets) ∧
    (classifySubnet exC10Data exC10Subnet).subnet_type = SubnetType.public := by
  refine ⟨?_, by decide⟩
  intro d f
  show (setRouteStates f d).subnets.map (classifySubnet (setRouteStates f d)) =
    d.subnets.map (classifySubnet d)
  rw [show (setRouteStates f d).subnets = d.subnets from rfl]
  exact List.map_congr_left (fun s _ => classifySubnet_setRouteStates f d s)

/-- C7: cross-account CIDR recovery collects, over all TGW route tables,
exactly the propagated (never static) routes with a non-empty concrete
destination CIDR and a target attachment id into per-attachment candidate
sets; afterwards exactly the VPC- or VPN-type attachments whose CIDR list
is empty receive the sorted de-duplicated candidate list for their id, and
every other attachment — in particular one whose CIDR list is already
non-empty — is unchanged, as is every other collection of the catalog. -/
theorem claim_C7_cross_account_cidr_recovery :
    (∀ (d : NetworkData) (i c : String),
      c ∈ candidatesFor d i ↔
        ∃ rt ∈ d.tgw_route_tables, ∃ route ∈ rt.routes,
          route.route_type = RouteType.propagated ∧ route.attachment_id = some i ∧
          i ≠ "" ∧ route.destination_cidr = c ∧ c ≠ "") ∧
    (∀ d : NetworkData,
      (extractCrossAccountCidrs d).tgw_attachments =
        d.tgw_attachments.map (fun att =>
          if (att.type = AttachmentType.vpc ∨ att.type = AttachmentType.vpn) ∧
              att.cidrs = [] then
            { att with cidrs := sortedDedup (candidatesFor d att.id) }
          else att)) ∧
    (∀ d : NetworkData,
      (extractCrossAccountCidrs d).tgws = d.tgws ∧
      (extractCrossAccountCidrs d).tgw_route_tables = d.tgw_route_tables ∧
      (extractCrossAccountCidrs d).vpcs = d.vpcs ∧
      (extractCrossAccountCidrs d).vpc_route_tables = d.vpc_route_tables ∧
      (extractCrossAccountCidrs d).subnets = d.subnets ∧
      (extractCrossAccountCidrs d).local_account_id = d.local_account_id) := by
  refine ⟨?_, ?_, ?_⟩
  · intro d i c
    rw [mem_candidatesFor]
    constructor
    · rintro ⟨rt, hrt, q, hq, hg, hd⟩
      obtain ⟨h1, h2, h3, h4⟩ := (propagatedCandidate_iff i q).mp hg
      exact ⟨rt, hrt, q, hq, h1, h2, h3, hd, hd ▸ h4⟩
    · rintro ⟨rt, hrt, q, hq, h1, h2, h3, hd, h5⟩
      refine ⟨rt, hrt, q, hq, (propagatedCandidate_iff i q).mpr ⟨h1, h2, h3, ?_⟩, hd⟩
      rw [hd]
      exact h5
  · intro d
    show d.tgw_attachments.map (fillAttachmentCidrs d) = _
    exact List.map_congr_left (fun att _ => fillAttachmentCidrs_spec d att)
  · intro d
    exact ⟨rfl, rfl, rfl, rfl, rfl, rfl⟩

/-- C1: the analyzer emits an `asymmetric` warning finding for an ordered
pair (src, dst) of distinct attachments on one catalogued TGW exactly when
`can_reach(src, dst)` holds and `can_reach(dst, src)` does not, with
`can_reach` as the spec defines it (false without an associated, catalogued
route table; else a non-blackhole route attributed to the destination whose
CIDR matches one of the destination's CIDRs); in the one-directional-route
scenario exactly one finding, for (A, B), is emitted. -/
theorem claim_C1_asymmetric_reachability :
    (∀ d : NetworkData,
      checkAsymmetricRouting d = (asymPairs d).map (fun p => mkAsymFinding p.1 p.2)) ∧
    (∀ (d : NetworkData) (src dst : TGWAttachment),
      (src, dst) ∈ asymPairs d ↔
        ∃ t ∈ d.tgws, src ∈ d.tgw_attachments ∧ dst ∈ d.tgw_attachments ∧
          src.tgw_id = t.id ∧ dst.tgw_id = t.id ∧ src.id ≠ dst.id ∧
          canReach d src dst = true ∧ canReach d dst src = false) ∧
    (∀ (d : NetworkData) (a b : TGWAttachment),
      canReach d a b = true ↔
        ∃ rtId, a.associated_route_table_id = some rtId ∧ rtId ≠ "" ∧
          ∃ rt, findTGWRouteTable d rtId = some rt ∧
            ∃ route ∈ rt.routes, route.state ≠ RouteState.blackhole ∧
              route.attachment_id = some b.id ∧
              ∃ cidr ∈ b.cidrs, cidrMatches route.destination_cidr cidr = true) ∧
    asymPairs exC1Data = [(exAttA, exAttB)] ∧
    checkAsymmetricRouting exC1Data = [mkAsymFinding exAttA exAttB] := by
  refine ⟨checkAsymmetricRouting_eq, mem_asymPairs, canReach_iff, by decide, by decide⟩

/-- C9: the overlap check flags, per unordered pair of distinct VPCs and
per CIDR cross-pair, exactly one warning finding when the networks overlap
— in whichever catalog order the pair appears (the matcher is unordered and
the overlap test symmetric); a VPC is never compared against itself, and a
CIDR that does not parse contributes no finding. -/
theorem claim_C9_cidr_overlap :
    (∀ vpcs : List VPC,
      checkCidrOverlaps vpcs =
        (overlapQuads vpcs).map (fun q => mkOverlapFinding q.1 q.2.1 q.2.2.1 q.2.2.2)) ∧
    (∀ c1 c2 : String, overlapsB c1 c2 = overlapsB c2 c1) ∧
    (∀ c1 c2 : String, ipNetwork c1 = none ∨ ipNetwork c2 = none →
      overlapsB c1 c2 = false) ∧
    (∀ (vpcs : List VPC) (v1 v2 : VPC) (c1 c2 : String),
      (vpcs.map VPC.id).Nodup → v1 ∈ vpcs → v2 ∈ vpcs → v1.id ≠ v2.id →
      c1 ∈ v1.cidrs → c2 ∈ v2.cidrs → v1.cidrs.Nodup → v2.cidrs.Nodup →
      (overlapQuads vpcs).countP (quadMatch v1.id c1 v2.id c2) =
        if overlapsB c1 c2 = true then 1 else 0) ∧
    (∀ vpcs : List VPC, (vpcs.map VPC.id).Nodup →
      ∀ q ∈ overlapQuads vpcs, q.1.id ≠ q.2.2.1.id) := by
  refine ⟨checkCidrOverlaps_eq, overlapsB_comm, ?_, ?_, overlapQuads_no_self⟩
  · intro c1 c2 h
    unfold overlapsB
    rcases h with h | h
    · rw [h]
    · rw [h]
      cases ipNetwork c1 <;> rfl
  · intro vpcs v1 v2 c1 c2 hids hv1 hv2 hne hc1 hc2 hn1 hn2
    exact countP_overlapQuads vpcs hids v1 v2 c1 c2 hv1 hv2 hne hc1 hc2 hn1 hn2

/-- C9 witness: the claim applied to the spec's scenario — VPC1
`10.0.0.0/16` against VPC2 `10.0.5.0/24` yields exactly one flagged pair,
and an unparseable CIDR yields none. -/
theorem claim_C9_cidr_overlap_witness :
    (overlapQuads [exVPCo1, exVPCo2]).countP
        (quadMatch exVPCo1.id "10.0.0.0/16" exVPCo2.id "10.0.5.0/24") =
      (if overlapsB "10.0.0.0/16" "10.0.5.0/24" = true then 1 else 0) ∧
    overlapsB "garbage" "10.0.0.0/8" = false := by
  refine ⟨?_, ?_⟩
  · exact claim_C9_cidr_overlap.2.2.2.1 [exVPCo1, exVPCo2] exVPCo1 exVPCo2
      "10.0.0.0/16" "10.0.5.0/24" (by decide) (by decide) (by decide) (by decide)
      (by decide) (by decide) (by decide) (by decide)
  · exact claim_C9_cidr_overlap.2.2.1 "garbage" "10.0.0.0/8" (Or.inl (by decide))

/-- C6 counterexample: associating one attachment to two tables leaves the
id in both tables' associations while the attachment points only at the
last-processed table, so the claimed round-trip equivalence fails for this
input batch. -/
theorem claim_C6_counterexample :
    ((applyAssociations exC6Data exC6Batches).tgw_route_tables.map
        (fun t => (t.id, t.associations)) =
      [("tgw-rtb-1", ["att-A"]), ("tgw-rtb-2", ["att-A"])]) ∧
    ((applyAssociations exC6Data exC6Batches).tgw_attachments.map
        (fun a => (a.id, a.associated_route_table_id)) =
      [("att-A", some "tgw-rtb-2")]) ∧
    ¬ (∀ t ∈ (applyAssociations exC6Data exC6Batches).tgw_route_tables,
        ∀ a ∈ (applyAssociations exC6Data exC6Batches).tgw_attachments,
          (a.id ∈ t.associations ↔ a.associated_route_table_id = some t.id)) := by
  decide

/-- C6 (amended): after the association phase over a freshly-loaded
catalog (all association lists empty, all attachment pointers unset), the
round-trip equivalence — an attachment id appears in a table's
associations iff that attachment points at the table — holds whenever
every accepted association record names an attachment present in the
catalog and no attachment id is accepted more than once across all
batches; an attachment associated by several tables' records instead ends
in every such table's associations while pointing only at the
last-processed one, and an accepted id absent from the catalog breaks the
equivalence as well. -/
theorem claim_C6_association_round_trip (d : NetworkData)
    (batches : List (String × List RawAssociation))
    (hc1 : ∀ t ∈ d.tgw_route_tables, t.associations = [])
    (hc2 : ∀ a ∈ d.tgw_attachments, a.associated_route_table_id = none)
    (hp : ∀ i ∈ acceptedIds batches, ∃ a ∈ d.tgw_attachments, a.id = i)
    (hn : (acceptedIds batches).Nodup) :
    ∀ t ∈ (applyAssociations d batches).tgw_route_tables,
      ∀ a ∈ (applyAssociations d batches).tgw_attachments,
        (a.id ∈ t.associations ↔ a.associated_route_table_id = some t.id) := by
  apply applyAssociations_good batches d
  · intro t ht a ha
    rw [hc1 t ht, hc2 a ha]
    simp
  · intro i hi
    refine ⟨⟨fun t ht => ?_, fun a ha _ => hc2 a ha⟩, hp i hi⟩
    rw [hc1 t ht]
    exact List.not_mem_nil i
  · exact hn

/-- C6 amended-claim witness: the round-trip equivalence at the concrete
single-association batch. -/
theorem claim_C6_association_round_trip_witness :
    (TGWAttachment.mk "att-A" "tgw-1" AttachmentType.vpc "vpc-A" "" "A" "available"
        [] (some "tgw-rtb-1") [] false "").id ∈
      (TGWRouteTable.mk "tgw-rtb-1" "tgw-1" "rt1" false false [] ["att-A"]
        []).associations ↔
    (TGWAttachment.mk "att-A" "tgw-1" AttachmentType.vpc "vpc-A" "" "A" "available"
        [] (some "tgw-rtb-1") [] false "").associated_route_table_id =
      some (TGWRouteTable.mk "tgw-rtb-1" "tgw-1" "rt1" false false [] ["att-A"] []).id :=
  claim_C6_association_round_trip exC6Data exC6GoodBatches
    (by decide) (by decide) (by decide) (by decide)
    (TGWRouteTable.mk "tgw-rtb-1" "tgw-1" "rt1" false false [] ["att-A"] [])
    (by decide)
    (TGWAttachment.mk "att-A" "tgw-1" AttachmentType.vpc "vpc-A" "" "A" "available"
      [] (some "tgw-rtb-1") [] false "")
    (by decide)

end NetworkDiagram
